import Mathlib

/-!
# Verification of the nh_clinical patient-flow operations

Shallow embedding of `src/nh_clinical/operations.py`: the Movement, Swap-beds,
Placement, Discharge and Admission workflow methods, over an explicit system
state (`Sys`) holding the activity records, patients, locations and points of
service.  The generic Activity Engine (`nh.activity`), the spell registry
(`nh.clinical.spell`) and the location-directory helpers are repository code
not present under `src/`; those pieces are modelled from the spec, each with a
doc comment starting `Modelled from the spec:`.

Machine conventions: record ids, sequence numbers and datetimes are `Nat`
(datetimes are opaque instants, only compared/copied); Odoo's falsy `False`
field values are `Option.none`; an operation returns `Option Err × Sys`
(`none` = success) and on an error returns the state reached at the point the
exception was raised.  Every state-changing engine primitive appends an event
to `Sys.log`, so ordering claims ("base completion precedes X") are statements
about the emitted log.
-/

set_option linter.unusedVariables false

/-- Activity lifecycle states (spec §3: draft→scheduled→started→completed/cancelled). -/
inductive ActState
  | draft
  | scheduled
  | started
  | completed
  | cancelled
deriving DecidableEq, Repr

/-- Terminal states: completed or cancelled. -/
def ActState.isTerminal : ActState → Bool
  | .completed => true
  | .cancelled => true
  | _ => false

/-- Payload of `nh.clinical.patient.move` (operations.py `_columns`):
`patient_id` (required), `location_id` (destination), `from_location_id`
(derived on completion), `move_datetime`.  The free-text `reason` field is
audit-only and not modelled. -/
structure MoveData where
  patientId : Nat
  locationId : Option Nat
  fromLocationId : Option Nat
  moveDatetime : Option Nat
deriving DecidableEq, Repr

/-- Payload of `nh.clinical.patient.swap_beds`: two bed locations. -/
structure SwapData where
  location1Id : Option Nat
  location2Id : Option Nat
deriving DecidableEq, Repr

/-- Payload of `nh.clinical.patient.placement`: suggested holding location,
destination bed, patient.  (`reason`/`pos_id` are audit/related fields, not
modelled.) -/
structure PlacementData where
  patientId : Nat
  suggestedLocationId : Nat
  locationId : Option Nat
deriving DecidableEq, Repr

/-- Payload of `nh.clinical.patient.discharge`: patient, the location the
patient is discharged from (derived from the spell at submit), discharge date. -/
structure DischargeData where
  patientId : Nat
  locationId : Option Nat
  dischargeDate : Option Nat
deriving DecidableEq, Repr

/-- Payload of `nh.clinical.patient.admission`: patient, point of service,
admission location, start date.  (`code` and the doctor reference sets are
carried opaquely by the admission and play no role in the claims.) -/
structure AdmissionData where
  patientId : Nat
  posId : Nat
  locationId : Nat
  startDate : Option Nat
deriving DecidableEq, Repr

/-- Modelled from the spec: a Spell record (one continuous hospital stay),
activity-backed, with `patient_id`, a denormalized `location_id` and the
admitting `pos_id`. -/
structure SpellData where
  patientId : Nat
  locationId : Option Nat
  posId : Nat
deriving DecidableEq, Repr

/-- The workflow-specific data record (`data_ref`) owned by an activity,
tagged by its data model. -/
inductive ActData
  | move (d : MoveData)
  | swap (d : SwapData)
  | placement (d : PlacementData)
  | discharge (d : DischargeData)
  | admission (d : AdmissionData)
  | spell (d : SpellData)
deriving DecidableEq, Repr

/-- Modelled from the spec: an `nh.activity` record — lifecycle state, weak
parent/creator references, engine ordering field `sequence`, termination
timestamp, and the owned workflow payload. -/
structure Activity where
  id : Nat
  state : ActState
  parentId : Option Nat
  creatorId : Option Nat
  sequence : Nat
  dateTerminated : Option Nat
  data : ActData
deriving DecidableEq, Repr

/-- An `nh.clinical.patient` record, as consumed by the operations:
only `current_location_id` is written by them. -/
structure Patient where
  id : Nat
  currentLocationId : Option Nat
deriving DecidableEq, Repr

/-- Location usages relevant to operations.py: `bed`, `ward`, anything else. -/
inductive LocUsage
  | bed
  | ward
  | other
deriving DecidableEq, Repr

/-- An `nh.clinical.location` record: usage, parent in the location tree,
availability flag, current occupants, lookup code. -/
structure Location where
  id : Nat
  usage : LocUsage
  parentId : Option Nat
  isAvailable : Bool
  patientIds : List Nat
  code : Option String
deriving DecidableEq, Repr

/-- An `nh.clinical.pos` (point of service) record with its default location. -/
structure Pos where
  id : Nat
  locationId : Nat
deriving DecidableEq, Repr

/-- Events recorded in chronological order as the engine primitives run;
used to state ordering properties of the workflow methods. -/
inductive Ev
  | createActivity (aid : Nat)
  | baseSubmit (aid : Nat)
  | baseComplete (aid : Nat)
  | baseCancel (aid : Nat)
  | writeMoveDatetime (aid : Nat)
  | triggerPolicy (aid : Nat) (locId : Option Nat)
deriving DecidableEq, Repr

/-- The whole system state: all activity records (with their payloads),
patients, locations, points of service, fresh-id/sequence counters, the
current clock, and the chronological event log. -/
structure Sys where
  activities : List Activity
  patients : List Patient
  locations : List Location
  poses : List Pos
  nextId : Nat
  nextSeq : Nat
  now : Nat
  log : List Ev
deriving DecidableEq, Repr

/-- Errors raised by the operations (each mirrors one `osv.except_osv` site,
plus `recordNotFound`/`wrongModel` for accesses Python would crash on). -/
inductive Err
  | recordNotFound
  | wrongModel
  | noDestinationLocation (aid : Nat)
  | noPatientInLocation (locId : Nat)
  | differentWards
  | locationNotAvailable (locId : Nat)
  | placementWithoutLocation (aid : Nat)
  | noOpenSpell (pid : Nat)
  | patientRequiredForAdmission
  | alreadyAdmitted (pid : Nat)
  | patientRequiredForDischarge
  | alreadyDischarged (pid : Nat)
deriving DecidableEq, Repr

/-! ## Record lookup and update helpers -/

/-- Point update of the activity list: apply `f` to the record(s) with id `i`. -/
def updActs (l : List Activity) (i : Nat) (f : Activity → Activity) : List Activity :=
  l.map fun a => if a.id == i then f a else a

/-- Look up an activity record by id (`browse`). -/
def findAct (l : List Activity) (i : Nat) : Option Activity :=
  l.find? fun a => a.id == i

/-- Point update of the patient list. -/
def updPats (l : List Patient) (i : Nat) (f : Patient → Patient) : List Patient :=
  l.map fun p => if p.id == i then f p else p

/-- Look up a patient record by id. -/
def findPat (l : List Patient) (i : Nat) : Option Patient :=
  l.find? fun p => p.id == i

/-- Look up a location record by id. -/
def findLoc (l : List Location) (i : Nat) : Option Location :=
  l.find? fun x => x.id == i

/-- Look up a POS record by id. -/
def findPos (l : List Pos) (i : Nat) : Option Pos :=
  l.find? fun x => x.id == i

/-- Write a `location_id` field update into a data record (the generic engine
`submit` with vals `{location_id: v}`; a swap payload has no such field). -/
def ActData.setLocation : ActData → Option Nat → ActData
  | .move d, v => .move { d with locationId := v }
  | .spell d, v => .spell { d with locationId := v }
  | .placement d, v => .placement { d with locationId := v }
  | .discharge d, v => .discharge { d with locationId := v }
  | .admission d, some v => .admission { d with locationId := v }
  | .admission d, none => .admission d
  | .swap d, _ => .swap d

/-- Write the derived `from_location_id` of a movement payload. -/
def ActData.setFromLocation : ActData → Option Nat → ActData
  | .move d, v => .move { d with fromLocationId := v }
  | d, _ => d

/-- Write the `move_datetime` of a movement payload. -/
def ActData.setMoveDatetime : ActData → Option Nat → ActData
  | .move d, v => .move { d with moveDatetime := v }
  | d, _ => d

/-- The payload's patient, when its model has one (the engine's related
`patient_id` column used in activity searches). -/
def ActData.patientId? : ActData → Option Nat
  | .move d => some d.patientId
  | .swap _ => none
  | .placement d => some d.patientId
  | .discharge d => some d.patientId
  | .admission d => some d.patientId
  | .spell d => some d.patientId

/-- The destination location of a movement payload (`data_ref.location_id`). -/
def Activity.moveLocation? (a : Activity) : Option Nat :=
  match a.data with
  | .move d => d.locationId
  | _ => none

/-! ## Activity Engine primitives (modelled from the spec) -/

/-- Modelled from the spec: the Activity Engine's `complete` transition marks
the activity `completed` and timestamps `date_terminated`; the engine ordering
field `sequence` is advanced on each state transition, so that
`order='sequence desc'` lists most-recently-transitioned records first. -/
def baseComplete (s : Sys) (aid : Nat) : Sys :=
  { s with
    activities := updActs s.activities aid fun a =>
      { a with state := .completed, dateTerminated := some s.now, sequence := s.nextSeq },
    nextSeq := s.nextSeq + 1,
    log := s.log ++ [Ev.baseComplete aid] }

/-- Modelled from the spec: the Activity Engine's `cancel` transition marks
the activity `cancelled` and timestamps `date_terminated`. -/
def baseCancel (s : Sys) (aid : Nat) : Sys :=
  { s with
    activities := updActs s.activities aid fun a =>
      { a with state := .cancelled, dateTerminated := some s.now, sequence := s.nextSeq },
    nextSeq := s.nextSeq + 1,
    log := s.log ++ [Ev.baseCancel aid] }

/-- Modelled from the spec: the generic Activity Engine
`submit(activity_id, {location_id: v})`, writing the field update into the
activity's data record (used for the Spell location mirror and for
re-targeting a movement). -/
def baseSubmitLocation (s : Sys) (aid : Nat) (v : Option Nat) : Sys :=
  { s with
    activities := updActs s.activities aid fun a => { a with data := a.data.setLocation v },
    log := s.log ++ [Ev.baseSubmit aid] }

/-- Modelled from the spec: `create_activity(parent/creator refs, payload)`
appends a fresh activity record in its initial (draft) state and returns its id. -/
def createActivity (s : Sys) (parentId creatorId : Option Nat) (d : ActData) : Nat × Sys :=
  (s.nextId,
    { s with
      activities := s.activities ++
        [{ id := s.nextId, state := .draft, parentId := parentId, creatorId := creatorId,
           sequence := s.nextSeq, dateTerminated := none, data := d }],
      nextId := s.nextId + 1,
      nextSeq := s.nextSeq + 1,
      log := s.log ++ [Ev.createActivity s.nextId] })

/-- Modelled from the spec: `trigger_policy(location_id=…)` is a
fire-and-forget hook; only its invocation (and location context) is recorded. -/
def triggerPolicy (s : Sys) (aid : Nat) (locId : Option Nat) : Sys :=
  { s with log := s.log ++ [Ev.triggerPolicy aid locId] }

/-- Modelled from the spec: `nh.clinical.spell.get_by_patient_id` resolves the
patient's currently open Spell — the spell activity for that patient whose
state is `started`. -/
def openSpellAct (s : Sys) (pid : Nat) : Option Activity :=
  s.activities.find? fun a =>
    match a.data with
    | .spell d => d.patientId == pid && a.state == .started
    | _ => false

/-- Modelled from the spec: `location_pool.get_closest_parent_id(loc, 'ward')`
walks the `parent_id` chain upward (strictly above `startId`) and returns the
first location of `ward` usage; fuelled by the number of location records. -/
def closestWardAux (l : List Location) : Nat → Option Nat → Option Nat
  | 0, _ => none
  | _, none => none
  | fuel + 1, some i =>
    match findLoc l i with
    | none => none
    | some loc => if loc.usage == .ward then some i else closestWardAux l fuel loc.parentId

/-- The nearest strict `ward` ancestor of a location, if any. -/
def closestWard (s : Sys) (startId : Nat) : Option Nat :=
  match findLoc s.locations startId with
  | none => none
  | some loc => closestWardAux s.locations s.locations.length loc.parentId

/-- The occupants of a location referenced by an optional id (empty when the
reference is unset or dangling). -/
def pidsAt (s : Sys) : Option Nat → List Nat
  | none => []
  | some i =>
    match findLoc s.locations i with
    | none => []
    | some loc => loc.patientIds

/-! ## Movement workflow: `nh_clinical_patient_move.complete` -/

/-- `True` for a completed movement activity of the given patient — the search
domain `[['data_model','=','nh.clinical.patient.move'], ['state','=','completed'],
['patient_id','=',pid]]` of operations.py lines 88–92. -/
def Activity.isCompletedMoveFor (a : Activity) (pid : Nat) : Bool :=
  match a.data with
  | .move d => d.patientId == pid && a.state == .completed
  | _ => false

/-- First element of maximal `sequence` — the head of a search ordered by
`sequence desc`. -/
def maxBySeq : List Activity → Option Activity
  | [] => none
  | a :: rest =>
    match maxBySeq rest with
    | none => some a
    | some b => if b.sequence ≤ a.sequence then some a else some b

/-- The most recently completed movement of a patient (operations.py
lines 88–96): completed movement activities ordered by `sequence desc`, head. -/
def lastCompletedMove (s : Sys) (pid : Nat) : Option Activity :=
  maxBySeq (s.activities.filter fun a => a.isCompletedMoveFor pid)

/-- `nh_clinical_patient_move.complete` (operations.py lines 72–124):
requires a destination location; derives `from_location_id` from the last
completed movement of the patient; writes the patient's
`current_location_id`; if the activity has a parent, re-submits it with the
new location; back-fills `move_datetime` with the current time when absent;
finally defers to the base engine completion. -/
def nh_clinical_patient_move.complete (s : Sys) (aid : Nat) : Option Err × Sys :=
  match findAct s.activities aid with
  | none => (some .recordNotFound, s)
  | some act =>
    match act.data with
    | .move d =>
      match d.locationId with
      | none => (some (.noDestinationLocation aid), s)
      | some dest =>
        let fromLoc : Option Nat :=
          match lastCompletedMove s d.patientId with
          | some m => m.moveLocation?
          | none => none
        let s1 : Sys :=
          { s with activities := (updActs s.activities aid
              (fun a => { a with data := a.data.setFromLocation fromLoc })) }
        let s2 : Sys :=
          { s1 with patients := (updPats s1.patients d.patientId
              (fun p => { p with currentLocationId := some dest })) }
        let s3 : Sys :=
          match act.parentId with
          | some par => baseSubmitLocation s2 par (some dest)
          | none => s2
        let s4 : Sys :=
          match d.moveDatetime with
          | some _ => s3
          | none =>
            { s3 with
              activities := (updActs s3.activities aid
                (fun a => { a with data := a.data.setMoveDatetime (some s3.now) })),
              log := s3.log ++ [Ev.writeMoveDatetime aid] }
        (none, baseComplete s4 aid)
    | _ => (some .wrongModel, s)

/-! ## Swap-beds workflow: `nh_clinical_patient_swap_beds` -/

/-- Field updates submitted to a swap activity (`vals`); an absent key leaves
the stored field unchanged. -/
structure SwapVals where
  location1Id : Option Nat
  location2Id : Option Nat
deriving DecidableEq, Repr

/-- Apply submitted swap vals to the stored payload (keys present overwrite). -/
def SwapData.applyVals (d : SwapData) (v : SwapVals) : SwapData :=
  { location1Id := match v.location1Id with | some x => some x | none => d.location1Id,
    location2Id := match v.location2Id with | some x => some x | none => d.location2Id }

/-- Modelled from the spec: the base engine `submit` for a swap activity
writes the submitted field updates into the data record. -/
def baseSubmitSwap (s : Sys) (aid : Nat) (v : SwapVals) : Sys :=
  { s with
    activities := (updActs s.activities aid
      (fun a => { a with data := match a.data with
        | .swap d => .swap (d.applyVals v)
        | other => other })),
    log := s.log ++ [Ev.baseSubmit aid] }

/-- `nh_clinical_patient_swap_beds.submit` (operations.py lines 150–182):
delegates to the base submit first, then validates that each of the two
locations holds a patient ("No patient in location …") and that both resolve
to the same closest `ward` ancestor ("different wards"). -/
def nh_clinical_patient_swap_beds.submit (s : Sys) (aid : Nat) (v : SwapVals) :
    Option Err × Sys :=
  let s0 := baseSubmitSwap s aid v
  match findAct s0.activities aid with
  | none => (some .recordNotFound, s0)
  | some act =>
    match act.data with
    | .swap d =>
      if h1 : d.location1Id.isSome ∧ pidsAt s0 d.location1Id = [] then
        (some (.noPatientInLocation (d.location1Id.getD 0)), s0)
      else if h2 : d.location2Id.isSome ∧ pidsAt s0 d.location2Id = [] then
        (some (.noPatientInLocation (d.location2Id.getD 0)), s0)
      else
        let ward1 := d.location1Id.bind (closestWard s0)
        let ward2 := d.location2Id.bind (closestWard s0)
        if ward1 ≠ ward2 then (some .differentWards, s0)
        else (none, s0)
    | _ => (some .wrongModel, s0)

/-- `nh_clinical_patient_swap_beds.complete` (operations.py lines 184–221):
reads the first occupant of each bed, resolves each occupant's open Spell,
creates one movement per patient targeting the other bed (parent = that
patient's spell activity, creator = this swap activity), completes both
movements, then defers to the base completion. -/
def nh_clinical_patient_swap_beds.complete (s : Sys) (aid : Nat) : Option Err × Sys :=
  match findAct s.activities aid with
  | none => (some .recordNotFound, s)
  | some act =>
    match act.data with
    | .swap d =>
      match (pidsAt s d.location1Id).head?, (pidsAt s d.location2Id).head? with
      | some p1, some p2 =>
        let parent1 := (openSpellAct s p1).map (fun a => a.id)
        let parent2 := (openSpellAct s p2).map (fun a => a.id)
        let r1 := createActivity s parent1 (some aid)
          (.move { patientId := p1, locationId := d.location2Id,
                   fromLocationId := none, moveDatetime := none })
        let r2 := createActivity r1.2 parent2 (some aid)
          (.move { patientId := p2, locationId := d.location1Id,
                   fromLocationId := none, moveDatetime := none })
        match nh_clinical_patient_move.complete r2.2 r1.1 with
        | (some e, s') => (some e, s')
        | (none, s3) =>
          match nh_clinical_patient_move.complete s3 r2.1 with
          | (some e, s') => (some e, s')
          | (none, s4) => (none, baseComplete s4 aid)
      | _, _ => (some .recordNotFound, s)
    | _ => (some .wrongModel, s)

/-! ## Placement workflow: `NhClinicalPatientPlacement` -/

/-- `True` for a placement record of the given patient in a non-terminal
state — the search domain of `cancel_open_placements`
(operations.py lines 325–328). -/
def Activity.isOpenPlacementFor (a : Activity) (pid : Nat) : Bool :=
  match a.data with
  | .placement d => d.patientId == pid && !a.state.isTerminal
  | _ => false

/-- The ids of the patient's open placements (`cancel_open_placements` search). -/
def openPlacementIds (s : Sys) (pid : Nat) : List Nat :=
  (s.activities.filter fun a => a.isOpenPlacementFor pid).map fun a => a.id

/-- `NhClinicalPatientPlacement.cancel_open_placements` (operations.py
lines 322–334): cancel every open placement of the patient except the one to
keep open. -/
def NhClinicalPatientPlacement.cancel_open_placements (s : Sys) (pid : Nat)
    (keep : Nat) : Sys :=
  ((openPlacementIds s pid).filter fun i => i ≠ keep).foldl baseCancel s

/-- `NhClinicalPatientPlacement.create` (operations.py lines 308–320): create
the new placement record, then cancel any open placements of that patient,
keeping the new one open.  Returns the new activity id and the new state. -/
def NhClinicalPatientPlacement.create (s : Sys) (vals : PlacementData) : Nat × Sys :=
  let r := createActivity s none none (.placement vals)
  (r.1, NhClinicalPatientPlacement.cancel_open_placements r.2 vals.patientId r.1)

/-- `NhClinicalPatientPlacement.complete` (operations.py lines 336–385):
requires a destination location (checked before any state change); defers to
the base completion; then resolves the patient's open Spell — raising
"No open spell found" when absent, after the base completion already ran;
creates and completes a movement to the destination; submits the spell with
the new location; and fires the placement policy trigger. -/
def NhClinicalPatientPlacement.complete (s : Sys) (aid : Nat) : Option Err × Sys :=
  match findAct s.activities aid with
  | none => (some .recordNotFound, s)
  | some act =>
    match act.data with
    | .placement d =>
      match d.locationId with
      | none => (some (.placementWithoutLocation aid), s)
      | some loc =>
        let s1 := baseComplete s aid
        match openSpellAct s1 d.patientId with
        | none => (some (.noOpenSpell d.patientId), s1)
        | some spellAct =>
          let r := createActivity s1 (some spellAct.id) (some aid)
            (.move { patientId := d.patientId, locationId := some loc,
                     fromLocationId := none, moveDatetime := none })
          match nh_clinical_patient_move.complete r.2 r.1 with
          | (some e, s') => (some e, s')
          | (none, s3) =>
            let s4 := baseSubmitLocation s3 spellAct.id (some loc)
            (none, triggerPolicy s4 aid (some loc))
    | _ => (some .wrongModel, s)

/-! ## Discharge workflow: `nh_clinical_patient_discharge` -/

/-- `True` when an activity is a completed admission of the given patient
whose parent activity is in `started` state — the search domain of
`nh_clinical_patient_admission.get_last` (operations.py lines 737–740). -/
def Activity.isActiveAdmissionFor (s : Sys) (a : Activity) (pid : Nat) : Bool :=
  match a.data with
  | .admission d =>
    d.patientId == pid && a.state == .completed &&
      (match a.parentId with
       | some par =>
         match findAct s.activities par with
         | some pa => pa.state == .started
         | none => false
       | none => false)
  | _ => false

/-- `nh_clinical_patient_admission.get_last` with `exception='True'` raises
exactly when its search finds a record; only that existence matters to the
caller, so the model keeps the found/not-found bit. -/
def activeAdmissionExists (s : Sys) (pid : Nat) : Bool :=
  s.activities.any fun a => a.isActiveAdmissionFor s pid

/-- `True` when an activity is a completed discharge of the given patient
whose parent activity is also completed — the search domain of
`nh_clinical_patient_discharge.get_last` (operations.py lines 579–582). -/
def Activity.isCompletedDischargeFor (s : Sys) (a : Activity) (pid : Nat) : Bool :=
  match a.data with
  | .discharge d =>
    d.patientId == pid && a.state == .completed &&
      (match a.parentId with
       | some par =>
         match findAct s.activities par with
         | some pa => pa.state == .completed
         | none => false
       | none => false)
  | _ => false

/-- Whether a completed discharge (in the sense of `discharge.get_last`)
other than the activity `aid` exists for the patient. -/
def completedDischargeExistsExcept (s : Sys) (pid : Nat) (aid : Nat) : Bool :=
  s.activities.any fun a => a.id ≠ aid && a.isCompletedDischargeFor s pid

/-- The fixed lookup code of the designated discharge location
(operations.py line 481). -/
def dischargeLocationCode : String := "GDL0987654321"

/-- `location_pool.search([['code','=','GDL0987654321']])`, head. -/
def findDischargeLocation (s : Sys) : Option Location :=
  s.locations.find? fun l => l.code == some dischargeLocationCode

/-- `nh_clinical_patient_discharge.complete` (operations.py lines 458–502):
defers to the base completion first; resolves the discharge location by fixed
code, falling back to the admitting POS's default location (taken from the
parent spell); creates a movement there, carrying the discharge record's
`discharge_date` as `move_datetime`; completes that movement; completes the
parent spell activity; and, when a `discharge_date` was given, overwrites the
spell activity's `date_terminated` with it. -/
def nh_clinical_patient_discharge.complete (s : Sys) (aid : Nat) : Option Err × Sys :=
  match findAct s.activities aid with
  | none => (some .recordNotFound, s)
  | some act =>
    match act.data with
    | .discharge d =>
      let s1 := baseComplete s aid
      match act.parentId with
      | none => (some .recordNotFound, s1)
      | some par =>
        let locId : Option Nat :=
          match findDischargeLocation s1 with
          | some l => some l.id
          | none =>
            match findAct s1.activities par with
            | some pa =>
              match pa.data with
              | .spell sd => (findPos s1.poses sd.posId).map (fun p => p.locationId)
              | _ => none
            | none => none
        match locId with
        | none => (some .recordNotFound, s1)
        | some loc =>
          let r := createActivity s1 (some par) (some aid)
            (.move { patientId := d.patientId, locationId := some loc,
                     fromLocationId := none, moveDatetime := d.dischargeDate })
          match nh_clinical_patient_move.complete r.2 r.1 with
          | (some e, s') => (some e, s')
          | (none, s3) =>
            let s4 := baseComplete s3 par
            match d.dischargeDate with
            | some dd =>
              (none, { s4 with activities := (updActs s4.activities par
                (fun a => { a with dateTerminated := some dd })) })
            | none => (none, s4)
    | _ => (some .wrongModel, s)

/-- `nh_clinical_patient_discharge.cancel` (operations.py lines 504–566):
first asserts via `admission.get_last(…, exception='True')` that the patient
has no active admission; defers to the base cancellation; reopens the parent
spell (raw write: state `started`, `date_terminated` cleared); creates a
movement back to the pre-discharge location; if that location is an available
bed, completes the movement there and returns; otherwise re-targets the
movement to the location's closest `ward` ancestor (or the location itself if
it is a ward), completes it, and fires the admission-equivalent policy
trigger for the ward. -/
def nh_clinical_patient_discharge.cancel (s : Sys) (aid : Nat) : Option Err × Sys :=
  match findAct s.activities aid with
  | none => (some .recordNotFound, s)
  | some act =>
    match act.data with
    | .discharge d =>
      if activeAdmissionExists s d.patientId then
        (some (.alreadyAdmitted d.patientId), s)
      else
        let s1 := baseCancel s aid
        match act.parentId with
        | none => (some .recordNotFound, s1)
        | some par =>
          let s2 : Sys :=
            { s1 with activities := (updActs s1.activities par
                (fun a => { a with state := .started, dateTerminated := none })) }
          let r := createActivity s2 (some par) (some aid)
            (.move { patientId := d.patientId, locationId := d.locationId,
                     fromLocationId := none, moveDatetime := d.dischargeDate })
          let prevLoc := d.locationId.bind (findLoc r.2.locations)
          match prevLoc with
          | some l =>
            if l.usage == .bed && l.isAvailable then
              nh_clinical_patient_move.complete r.2 r.1
            else
              let wardId : Option Nat :=
                if l.usage == .ward then some l.id else closestWard r.2 l.id
              let s3 := baseSubmitLocation r.2 r.1 wardId
              match nh_clinical_patient_move.complete s3 r.1 with
              | (some e, s') => (some e, s')
              | (none, s4) => (none, triggerPolicy s4 aid wardId)
          | none =>
            let s3 := baseSubmitLocation r.2 r.1 none
            match nh_clinical_patient_move.complete s3 r.1 with
            | (some e, s') => (some e, s')
            | (none, s4) => (none, triggerPolicy s4 aid none)
    | _ => (some .wrongModel, s)

/-! ## Admission workflow: `nh_clinical_patient_admission.submit` -/

/-- Field updates submitted to an admission activity (`vals`); an absent key
leaves the stored field unchanged. -/
structure AdmissionVals where
  patientId : Option Nat
  posId : Option Nat
  locationId : Option Nat
  startDate : Option Nat
deriving DecidableEq, Repr

/-- Apply submitted admission vals to the stored payload. -/
def AdmissionData.applyVals (d : AdmissionData) (v : AdmissionVals) : AdmissionData :=
  { patientId := v.patientId.getD d.patientId,
    posId := v.posId.getD d.posId,
    locationId := v.locationId.getD d.locationId,
    startDate := match v.startDate with | some x => some x | none => d.startDate }

/-- Modelled from the spec: the base engine `submit` for an admission
activity writes the submitted field updates into the data record. -/
def baseSubmitAdmission (s : Sys) (aid : Nat) (v : AdmissionVals) : Sys :=
  { s with
    activities := (updActs s.activities aid
      (fun a => { a with data := match a.data with
        | .admission d => .admission (d.applyVals v)
        | other => other })),
    log := s.log ++ [Ev.baseSubmit aid] }

/-- `nh_clinical_patient_admission.submit` (operations.py lines 624–640):
requires `patient_id` in the submitted vals ("Patient required for
admission"); asserts via `spell.get_by_patient_id(…, exception='True')` that
the patient has no open spell ("already admitted"); then delegates to the
base submit. -/
def nh_clinical_patient_admission.submit (s : Sys) (aid : Nat) (v : AdmissionVals) :
    Option Err × Sys :=
  match v.patientId with
  | none => (some .patientRequiredForAdmission, s)
  | some pid =>
    match openSpellAct s pid with
    | some _ => (some (.alreadyAdmitted pid), s)
    | none => (none, baseSubmitAdmission s aid v)

/-! ## Derived value abbreviations -/

/-- The `from_location_id` value `nh_clinical_patient_move.complete` derives:
the destination of the patient's most recently completed movement, if any. -/
def mcFrom (s : Sys) (pid : Nat) : Option Nat :=
  match lastCompletedMove s pid with
  | some m => m.moveLocation?
  | none => none

/-- The discharge location `nh_clinical_patient_discharge.complete` resolves:
the location with the fixed code when present, else the admitting POS's
default location (the POS taken from the parent spell's payload). -/
def dischargeDestination (s : Sys) (sd : SpellData) : Option Nat :=
  match findDischargeLocation s with
  | some l => some l.id
  | none => (findPos s.poses sd.posId).map (fun p => p.locationId)

/-! ## Concrete example states (used by the witnesses) -/

/-- A small hospital: ward 1 with beds 2 (patient 101), 3 (patient 102) and
5 (free); ward 6 with bed 7 (patient 103); a coded discharge location 4.
Patients 101/102 have open spells (activities 1/2); activity 3 is a swap of
beds 2 and 3; activity 4 is a completed movement of patient 101; activity 5
is a started movement of patient 101 with no `move_datetime`; activities 6/7
are open placements of patient 104 (who has no spell); activity 8 is a draft
admission of patient 104. -/
def exS : Sys :=
  { activities :=
      [{ id := 1, state := .started, parentId := none, creatorId := none, sequence := 1,
         dateTerminated := none, data := .spell { patientId := 101, locationId := some 2, posId := 10 } },
       { id := 2, state := .started, parentId := none, creatorId := none, sequence := 2,
         dateTerminated := none, data := .spell { patientId := 102, locationId := some 3, posId := 10 } },
       { id := 3, state := .started, parentId := none, creatorId := none, sequence := 3,
         dateTerminated := none, data := .swap { location1Id := some 2, location2Id := some 3 } },
       { id := 4, state := .completed, parentId := some 1, creatorId := none, sequence := 4,
         dateTerminated := some 100,
         data := .move { patientId := 101, locationId := some 2, fromLocationId := none, moveDatetime := some 50 } },
       { id := 5, state := .started, parentId := some 1, creatorId := none, sequence := 5,
         dateTerminated := none,
         data := .move { patientId := 101, locationId := some 5, fromLocationId := none, moveDatetime := none } },
       { id := 6, state := .scheduled, parentId := none, creatorId := none, sequence := 6,
         dateTerminated := none,
         data := .placement { patientId := 104, suggestedLocationId := 1, locationId := none } },
       { id := 7, state := .scheduled, parentId := none, creatorId := none, sequence := 7,
         dateTerminated := none,
         data := .placement { patientId := 104, suggestedLocationId := 1, locationId := some 5 } },
       { id := 8, state := .draft, parentId := none, creatorId := none, sequence := 8,
         dateTerminated := none,
         data := .admission { patientId := 104, posId := 10, locationId := 1, startDate := none } }],
    patients :=
      [{ id := 101, currentLocationId := some 2 },
       { id := 102, currentLocationId := some 3 },
       { id := 103, currentLocationId := some 7 },
       { id := 104, currentLocationId := none }],
    locations :=
      [{ id := 1, usage := .ward, parentId := none, isAvailable := true, patientIds := [], code := none },
       { id := 2, usage := .bed, parentId := some 1, isAvailable := false, patientIds := [101], code := none },
       { id := 3, usage := .bed, parentId := some 1, isAvailable := false, patientIds := [102], code := none },
       { id := 4, usage := .other, parentId := none, isAvailable := true, patientIds := [],
         code := some dischargeLocationCode },
       { id := 5, usage := .bed, parentId := some 1, isAvailable := true, patientIds := [], code := none },
       { id := 6, usage := .ward, parentId := none, isAvailable := true, patientIds := [], code := none },
       { id := 7, usage := .bed, parentId := some 6, isAvailable := false, patientIds := [103], code := none }],
    poses := [{ id := 10, locationId := 1 }],
    nextId := 9, nextSeq := 20, now := 1000, log := [] }

/-- A discharge-focused hospital: patient 201 was discharged (completed spell
1, completed discharges 2 and 3, pre-discharge bed 2 free); patient 202 has
an open spell 4 and a started discharge 5; patient 203 has an active
admission (completed admission 6 under started spell 7) and a started
discharge 8. -/
def exD : Sys :=
  { activities :=
      [{ id := 1, state := .completed, parentId := none, creatorId := none, sequence := 1,
         dateTerminated := some 500, data := .spell { patientId := 201, locationId := some 4, posId := 10 } },
       { id := 2, state := .completed, parentId := some 1, creatorId := none, sequence := 2,
         dateTerminated := some 500,
         data := .discharge { patientId := 201, locationId := some 2, dischargeDate := some 400 } },
       { id := 3, state := .completed, parentId := some 1, creatorId := none, sequence := 3,
         dateTerminated := some 450,
         data := .discharge { patientId := 201, locationId := some 2, dischargeDate := some 300 } },
       { id := 4, state := .started, parentId := none, creatorId := none, sequence := 4,
         dateTerminated := none, data := .spell { patientId := 202, locationId := some 6, posId := 10 } },
       { id := 5, state := .started, parentId := some 4, creatorId := none, sequence := 5,
         dateTerminated := none,
         data := .discharge { patientId := 202, locationId := some 6, dischargeDate := some 600 } },
       { id := 6, state := .completed, parentId := some 7, creatorId := none, sequence := 6,
         dateTerminated := some 300,
         data := .admission { patientId := 203, posId := 10, locationId := 1, startDate := none } },
       { id := 7, state := .started, parentId := none, creatorId := none, sequence := 7,
         dateTerminated := none, data := .spell { patientId := 203, locationId := some 1, posId := 10 } },
       { id := 8, state := .started, parentId := some 7, creatorId := none, sequence := 8,
         dateTerminated := none,
         data := .discharge { patientId := 203, locationId := some 1, dischargeDate := none } }],
    patients :=
      [{ id := 201, currentLocationId := some 4 },
       { id := 202, currentLocationId := some 6 },
       { id := 203, currentLocationId := some 1 }],
    locations :=
      [{ id := 1, usage := .ward, parentId := none, isAvailable := true, patientIds := [], code := none },
       { id := 2, usage := .bed, parentId := some 1, isAvailable := true, patientIds := [], code := none },
       { id := 4, usage := .other, parentId := none, isAvailable := true, patientIds := [],
         code := some dischargeLocationCode },
       { id := 6, usage := .bed, parentId := some 1, isAvailable := false, patientIds := [202], code := none }],
    poses := [{ id := 10, locationId := 1 }],
    nextId := 9, nextSeq := 20, now := 2000, log := [] }

/-- The state after completing the datetime-less movement 5 of `exS`
(used to examine the event order of `nh_clinical_patient_move.complete`). -/
def movRunC9 : Sys := (nh_clinical_patient_move.complete exS 5).2

/-- The record of bed 2 in `exD` (patient 201's pre-discharge bed). -/
def exDbed2 : Location :=
  { id := 2, usage := .bed, parentId := some 1, isAvailable := true,
    patientIds := [], code := none }

/-! # Theorems

## Toolkit: lookups through point updates -/

theorem findAct_updActs (l : List Activity) (i j : Nat) (f : Activity → Activity)
    (hf : ∀ a, (f a).id = a.id) :
    findAct (updActs l i f) j =
      (findAct l j).map (fun a => if a.id == i then f a else a) := by
  have hp : ((fun a : Activity => a.id == j) ∘ (fun a => if a.id == i then f a else a)) =
      (fun a : Activity => a.id == j) := by
    funext a
    by_cases h : (a.id == i) = true <;> simp [Function.comp, h, hf]
  unfold findAct updActs
  rw [List.find?_map, hp]

theorem findAct_updActs_self (l : List Activity) (i : Nat) (f : Activity → Activity)
    (hf : ∀ a, (f a).id = a.id) :
    findAct (updActs l i f) i = (findAct l i).map f := by
  rw [findAct_updActs l i i f hf]
  cases h : findAct l i with
  | none => rfl
  | some a =>
    have ha := List.find?_some (show List.find? (fun x : Activity => x.id == i) l = some a from h)
    have ha' : a.id = i := by simpa using ha
    simp [ha']

theorem findAct_updActs_ne (l : List Activity) (i j : Nat) (f : Activity → Activity)
    (hf : ∀ a, (f a).id = a.id) (hne : j ≠ i) :
    findAct (updActs l i f) j = findAct l j := by
  rw [findAct_updActs l i j f hf]
  cases h : findAct l j with
  | none => rfl
  | some a =>
    have ha : a.id = j := by
      have h2 := List.find?_some (show List.find? (fun x : Activity => x.id == j) l = some a from h)
      have h3 : (a.id == j) = true := h2
      simpa using h3
    simp [ha, hne]

theorem findAct_append_left (l₁ l₂ : List Activity) (j : Nat) (a : Activity)
    (h : findAct l₁ j = some a) : findAct (l₁ ++ l₂) j = some a := by
  unfold findAct at *
  rw [List.find?_append, h]
  rfl

theorem findAct_append_fresh (l : List Activity) (b : Activity) (j : Nat)
    (hfresh : ∀ a ∈ l, a.id ≠ j) :
    findAct (l ++ [b]) j = if b.id == j then some b else none := by
  have h1 : findAct l j = none := by
    unfold findAct
    rw [List.find?_eq_none]
    intro x hx
    simpa using hfresh x hx
  unfold findAct at *
  rw [List.find?_append, h1]
  simp

theorem findPat_updPats (l : List Patient) (i j : Nat) (f : Patient → Patient)
    (hf : ∀ p, (f p).id = p.id) :
    findPat (updPats l i f) j =
      (findPat l j).map (fun p => if p.id == i then f p else p) := by
  have hp : ((fun p : Patient => p.id == j) ∘ (fun p => if p.id == i then f p else p)) =
      (fun p : Patient => p.id == j) := by
    funext p
    by_cases h : (p.id == i) = true <;> simp [Function.comp, h, hf]
  unfold findPat updPats
  rw [List.find?_map, hp]

theorem findPat_updPats_self (l : List Patient) (i : Nat) (f : Patient → Patient)
    (hf : ∀ p, (f p).id = p.id) :
    findPat (updPats l i f) i = (findPat l i).map f := by
  rw [findPat_updPats l i i f hf]
  cases h : findPat l i with
  | none => rfl
  | some p =>
    have hpi := List.find?_some (show List.find? (fun x : Patient => x.id == i) l = some p from h)
    have hpi' : p.id = i := by simpa using hpi
    simp [hpi']

theorem findPat_updPats_ne (l : List Patient) (i j : Nat) (f : Patient → Patient)
    (hf : ∀ p, (f p).id = p.id) (hne : j ≠ i) :
    findPat (updPats l i f) j = findPat l j := by
  rw [findPat_updPats l i j f hf]
  cases h : findPat l j with
  | none => rfl
  | some p =>
    have hpj : p.id = j := by
      have h2 := List.find?_some (show List.find? (fun x : Patient => x.id == j) l = some p from h)
      have h3 : (p.id == j) = true := h2
      simpa using h3
    simp [hpj, hne]

/-! ## Behaviour of `nh_clinical_patient_move.complete` on a movement with a
destination and a parent distinct from itself -/

theorem move_complete_fst (s : Sys) (aid : Nat) (a : Activity) (d : MoveData) (dest : Nat)
    (ha : findAct s.activities aid = some a) (hd : a.data = .move d)
    (hl : d.locationId = some dest) :
    (nh_clinical_patient_move.complete s aid).1 = none := by
  simp only [nh_clinical_patient_move.complete, ha, hd, hl]

theorem move_complete_act_self (s : Sys) (aid par : Nat) (a : Activity) (d : MoveData)
    (dest : Nat)
    (ha : findAct s.activities aid = some a) (hd : a.data = .move d)
    (hl : d.locationId = some dest) (hp : a.parentId = some par) (hne : par ≠ aid) :
    findAct (nh_clinical_patient_move.complete s aid).2.activities aid =
      some { a with
        state := .completed, dateTerminated := some s.now, sequence := s.nextSeq,
        data := .move { d with
          fromLocationId := mcFrom s d.patientId,
          moveDatetime := some (d.moveDatetime.getD s.now) } } := by
  simp only [nh_clinical_patient_move.complete, ha, hd, hl, hp]
  cases hdt : d.moveDatetime with
  | none =>
    simp only [baseComplete, baseSubmitLocation]
    rw [findAct_updActs_self _ _ _ (by intro x; rfl)]
    rw [findAct_updActs_self _ _ _ (by intro x; rfl)]
    rw [findAct_updActs_ne _ _ _ _ (by intro x; rfl) (Ne.symm hne)]
    rw [findAct_updActs_self _ _ _ (by intro x; rfl)]
    rw [ha]
    simp [hd, hp, hl, hdt, ActData.setFromLocation, ActData.setMoveDatetime, mcFrom]
  | some t =>
    simp only [baseComplete, baseSubmitLocation]
    rw [findAct_updActs_self _ _ _ (by intro x; rfl)]
    rw [findAct_updActs_ne _ _ _ _ (by intro x; rfl) (Ne.symm hne)]
    rw [findAct_updActs_self _ _ _ (by intro x; rfl)]
    rw [ha]
    simp [hd, hp, hl, hdt, ActData.setFromLocation, ActData.setMoveDatetime, mcFrom]

theorem move_complete_act_parent (s : Sys) (aid par : Nat) (a : Activity) (d : MoveData)
    (dest : Nat)
    (ha : findAct s.activities aid = some a) (hd : a.data = .move d)
    (hl : d.locationId = some dest) (hp : a.parentId = some par) (hne : par ≠ aid) :
    findAct (nh_clinical_patient_move.complete s aid).2.activities par =
      (findAct s.activities par).map
        (fun x => { x with data := x.data.setLocation (some dest) }) := by
  simp only [nh_clinical_patient_move.complete, ha, hd, hl, hp]
  cases hdt : d.moveDatetime with
  | none =>
    simp only [baseComplete, baseSubmitLocation]
    rw [findAct_updActs_ne _ _ _ _ (by intro x; rfl) hne]
    rw [findAct_updActs_ne _ _ _ _ (by intro x; rfl) hne]
    rw [findAct_updActs_self _ _ _ (by intro x; rfl)]
    rw [findAct_updActs_ne _ _ _ _ (by intro x; rfl) hne]
  | some t =>
    simp only [baseComplete, baseSubmitLocation]
    rw [findAct_updActs_ne _ _ _ _ (by intro x; rfl) hne]
    rw [findAct_updActs_self _ _ _ (by intro x; rfl)]
    rw [findAct_updActs_ne _ _ _ _ (by intro x; rfl) hne]

theorem move_complete_act_other (s : Sys) (aid par j : Nat) (a : Activity) (d : MoveData)
    (dest : Nat)
    (ha : findAct s.activities aid = some a) (hd : a.data = .move d)
    (hl : d.locationId = some dest) (hp : a.parentId = some par) (hne : par ≠ aid)
    (hja : j ≠ aid) (hjp : j ≠ par) :
    findAct (nh_clinical_patient_move.complete s aid).2.activities j =
      findAct s.activities j := by
  simp only [nh_clinical_patient_move.complete, ha, hd, hl, hp]
  cases hdt : d.moveDatetime with
  | none =>
    simp only [baseComplete, baseSubmitLocation]
    rw [findAct_updActs_ne _ _ _ _ (by intro x; rfl) hja]
    rw [findAct_updActs_ne _ _ _ _ (by intro x; rfl) hja]
    rw [findAct_updActs_ne _ _ _ _ (by intro x; rfl) hjp]
    rw [findAct_updActs_ne _ _ _ _ (by intro x; rfl) hja]
  | some t =>
    simp only [baseComplete, baseSubmitLocation]
    rw [findAct_updActs_ne _ _ _ _ (by intro x; rfl) hja]
    rw [findAct_updActs_ne _ _ _ _ (by intro x; rfl) hjp]
    rw [findAct_updActs_ne _ _ _ _ (by intro x; rfl) hja]

theorem move_complete_pat_self (s : Sys) (aid : Nat) (a : Activity) (d : MoveData)
    (dest : Nat)
    (ha : findAct s.activities aid = some a) (hd : a.data = .move d)
    (hl : d.locationId = some dest) :
    findPat (nh_clinical_patient_move.complete s aid).2.patients d.patientId =
      (findPat s.patients d.patientId).map
        (fun p => { p with currentLocationId := some dest }) := by
  simp only [nh_clinical_patient_move.complete, ha, hd, hl]
  cases hpp : a.parentId <;> cases hdt : d.moveDatetime <;>
    · simp only [baseComplete, baseSubmitLocation]
      rw [findPat_updPats_self _ _ _ (by intro x; rfl)]

theorem move_complete_pat_other (s : Sys) (aid q : Nat) (a : Activity) (d : MoveData)
    (dest : Nat)
    (ha : findAct s.activities aid = some a) (hd : a.data = .move d)
    (hl : d.locationId = some dest) (hq : q ≠ d.patientId) :
    findPat (nh_clinical_patient_move.complete s aid).2.patients q =
      findPat s.patients q := by
  simp only [nh_clinical_patient_move.complete, ha, hd, hl]
  cases hpp : a.parentId <;> cases hdt : d.moveDatetime <;>
    · simp only [baseComplete, baseSubmitLocation]
      rw [findPat_updPats_ne _ _ _ _ (by intro x; rfl) hq]

theorem move_complete_locations (s : Sys) (aid : Nat) (a : Activity) (d : MoveData)
    (dest : Nat)
    (ha : findAct s.activities aid = some a) (hd : a.data = .move d)
    (hl : d.locationId = some dest) :
    (nh_clinical_patient_move.complete s aid).2.locations = s.locations := by
  simp only [nh_clinical_patient_move.complete, ha, hd, hl]
  cases hpp : a.parentId <;> cases hdt : d.moveDatetime <;> rfl

theorem move_complete_poses (s : Sys) (aid : Nat) (a : Activity) (d : MoveData)
    (dest : Nat)
    (ha : findAct s.activities aid = some a) (hd : a.data = .move d)
    (hl : d.locationId = some dest) :
    (nh_clinical_patient_move.complete s aid).2.poses = s.poses := by
  simp only [nh_clinical_patient_move.complete, ha, hd, hl]
  cases hpp : a.parentId <;> cases hdt : d.moveDatetime <;> rfl

theorem move_complete_now (s : Sys) (aid : Nat) (a : Activity) (d : MoveData)
    (dest : Nat)
    (ha : findAct s.activities aid = some a) (hd : a.data = .move d)
    (hl : d.locationId = some dest) :
    (nh_clinical_patient_move.complete s aid).2.now = s.now := by
  simp only [nh_clinical_patient_move.complete, ha, hd, hl]
  cases hpp : a.parentId <;> cases hdt : d.moveDatetime <;> rfl

theorem move_complete_nextId (s : Sys) (aid : Nat) (a : Activity) (d : MoveData)
    (dest : Nat)
    (ha : findAct s.activities aid = some a) (hd : a.data = .move d)
    (hl : d.locationId = some dest) :
    (nh_clinical_patient_move.complete s aid).2.nextId = s.nextId := by
  simp only [nh_clinical_patient_move.complete, ha, hd, hl]
  cases hpp : a.parentId <;> cases hdt : d.moveDatetime <;> rfl

theorem move_complete_log (s : Sys) (aid : Nat) (a : Activity) (d : MoveData)
    (dest : Nat)
    (ha : findAct s.activities aid = some a) (hd : a.data = .move d)
    (hl : d.locationId = some dest) :
    ∃ t, (nh_clinical_patient_move.complete s aid).2.log = s.log ++ t := by
  simp only [nh_clinical_patient_move.complete, ha, hd, hl]
  cases hpp : a.parentId <;> cases hdt : d.moveDatetime <;>
    · simp only [baseComplete, baseSubmitLocation]
      first
        | exact ⟨_, rfl⟩
        | · simp only [List.append_assoc]
            exact ⟨_, rfl⟩

theorem move_complete_act_data (s : Sys) (aid : Nat) (a : Activity) (d : MoveData)
    (dest : Nat)
    (ha : findAct s.activities aid = some a) (hd : a.data = .move d)
    (hl : d.locationId = some dest) :
    ∃ a', findAct (nh_clinical_patient_move.complete s aid).2.activities aid = some a' ∧
      a'.state = .completed ∧
      a'.data = .move { d with
        fromLocationId := mcFrom s d.patientId,
        moveDatetime := some (d.moveDatetime.getD s.now) } := by
  cases hpp : a.parentId with
  | none =>
    simp only [nh_clinical_patient_move.complete, ha, hd, hl, hpp]
    cases hdt : d.moveDatetime with
    | none =>
      simp only [baseComplete]
      rw [findAct_updActs_self _ _ _ (by intro x; rfl)]
      rw [findAct_updActs_self _ _ _ (by intro x; rfl)]
      rw [findAct_updActs_self _ _ _ (by intro x; rfl)]
      rw [ha]
      exact ⟨_, rfl, rfl, by
        simp [hd, hdt, hl, ActData.setFromLocation, ActData.setMoveDatetime, mcFrom]⟩
    | some t =>
      simp only [baseComplete]
      rw [findAct_updActs_self _ _ _ (by intro x; rfl)]
      rw [findAct_updActs_self _ _ _ (by intro x; rfl)]
      rw [ha]
      exact ⟨_, rfl, rfl, by
        simp [hd, hdt, hl, ActData.setFromLocation, ActData.setMoveDatetime, mcFrom]⟩
  | some par =>
    by_cases hpe : par = aid
    · subst hpe
      simp only [nh_clinical_patient_move.complete, ha, hd, hl, hpp]
      cases hdt : d.moveDatetime with
      | none =>
        simp only [baseComplete, baseSubmitLocation]
        rw [findAct_updActs_self _ _ _ (by intro x; rfl)]
        rw [findAct_updActs_self _ _ _ (by intro x; rfl)]
        rw [findAct_updActs_self _ _ _ (by intro x; rfl)]
        rw [findAct_updActs_self _ _ _ (by intro x; rfl)]
        rw [ha]
        exact ⟨_, rfl, rfl, by
          simp [hd, hdt, hl, ActData.setFromLocation, ActData.setMoveDatetime,
            ActData.setLocation, mcFrom]⟩
      | some t =>
        simp only [baseComplete, baseSubmitLocation]
        rw [findAct_updActs_self _ _ _ (by intro x; rfl)]
        rw [findAct_updActs_self _ _ _ (by intro x; rfl)]
        rw [findAct_updActs_self _ _ _ (by intro x; rfl)]
        rw [ha]
        exact ⟨_, rfl, rfl, by
          simp [hd, hdt, hl, ActData.setFromLocation, ActData.setMoveDatetime,
            ActData.setLocation, mcFrom]⟩
    · rw [move_complete_act_self s aid par a d dest ha hd hl hpp hpe]
      exact ⟨_, rfl, rfl, rfl⟩

/-- C2: completing a Movement succeeds (given a destination) and sets its
`from_location_id` to the destination of the patient's most recently
completed movement — completed movements ordered by descending `sequence` —
or to `none` when the patient has no completed movement; hence the later
movement's `from_location_id` equals the earlier (most recently completed)
movement's `location_id`. -/
theorem claim_C2 (s : Sys) (aid : Nat) (a : Activity) (d : MoveData) (dest : Nat)
    (ha : findAct s.activities aid = some a)
    (hd : a.data = .move d)
    (hl : d.locationId = some dest) :
    (nh_clinical_patient_move.complete s aid).1 = none ∧
    ∃ a' d', findAct (nh_clinical_patient_move.complete s aid).2.activities aid = some a' ∧
      a'.data = .move d' ∧ a'.state = .completed ∧
      d'.fromLocationId = mcFrom s d.patientId ∧
      (∀ m md, lastCompletedMove s d.patientId = some m → m.data = .move md →
        d'.fromLocationId = md.locationId) ∧
      (lastCompletedMove s d.patientId = none → d'.fromLocationId = none) := by
  refine ⟨move_complete_fst s aid a d dest ha hd hl, ?_⟩
  obtain ⟨a', hfind, hstate, hdata⟩ := move_complete_act_data s aid a d dest ha hd hl
  refine ⟨a', _, hfind, hdata, hstate, rfl, ?_, ?_⟩
  · intro m md h1 h2
    simp [mcFrom, h1, h2, Activity.moveLocation?]
  · intro h1
    simp [mcFrom, h1]

/-- C2 witness: completing movement 5 of patient 101 in the example state;
the patient's most recently completed movement is activity 4 (destination
location 2), so the completed movement's `from_location_id` becomes `some 2`. -/
theorem claim_C2_witness :
    (nh_clinical_patient_move.complete exS 5).1 = none ∧
    ∃ a' d', findAct (nh_clinical_patient_move.complete exS 5).2.activities 5 = some a' ∧
      a'.data = .move d' ∧ a'.state = .completed ∧
      d'.fromLocationId = mcFrom exS 101 ∧
      (∀ m md, lastCompletedMove exS 101 = some m → m.data = .move md →
        d'.fromLocationId = md.locationId) ∧
      (lastCompletedMove exS 101 = none → d'.fromLocationId = none) :=
  claim_C2 exS 5
    { id := 5, state := .started, parentId := some 1, creatorId := none, sequence := 5,
      dateTerminated := none,
      data := .move { patientId := 101, locationId := some 5, fromLocationId := none,
                      moveDatetime := none } }
    { patientId := 101, locationId := some 5, fromLocationId := none, moveDatetime := none }
    5 (by decide) rfl rfl

/-- C9 counterexample: completing the datetime-less movement 5 of `exS`
emits the log `[baseSubmit 1, writeMoveDatetime 5, baseComplete 5]`: the
back-fill of `move_datetime` happened, yet the base completion does NOT
precede the default-timestamp write — the write comes first, refuting the
claim that the base completion call precedes it. -/
theorem claim_C9_counterexample :
    Ev.writeMoveDatetime 5 ∈ movRunC9.log ∧
    ¬ (movRunC9.log.indexOf (Ev.baseComplete 5) <
        movRunC9.log.indexOf (Ev.writeMoveDatetime 5)) := by
  decide

/-- C9 (amended): the back-fill of `move_datetime` (applied only when the
caller never supplied one) is written immediately BEFORE the base engine's
completion call, which is the final step of Movement complete — the base
completion does not precede the default-timestamp write. -/
theorem claim_C9 (s : Sys) (aid : Nat) (a : Activity) (d : MoveData) (dest : Nat)
    (ha : findAct s.activities aid = some a)
    (hd : a.data = .move d)
    (hl : d.locationId = some dest)
    (hnone : d.moveDatetime = none) :
    ∃ l, (nh_clinical_patient_move.complete s aid).2.log =
      l ++ [Ev.writeMoveDatetime aid, Ev.baseComplete aid] := by
  simp only [nh_clinical_patient_move.complete, ha, hd, hl, hnone]
  cases hpp : a.parentId <;>
    · simp only [baseComplete, baseSubmitLocation]
      rw [List.append_assoc]
      exact ⟨_, rfl⟩

/-- C9 witness: the amended ordering at the concrete input (movement 5 of
`exS`, which has no `move_datetime`). -/
theorem claim_C9_witness :
    ∃ l, (nh_clinical_patient_move.complete exS 5).2.log =
      l ++ [Ev.writeMoveDatetime 5, Ev.baseComplete 5] :=
  claim_C9 exS 5
    { id := 5, state := .started, parentId := some 1, creatorId := none, sequence := 5,
      dateTerminated := none,
      data := .move { patientId := 101, locationId := some 5, fromLocationId := none,
                      moveDatetime := none } }
    { patientId := 101, locationId := some 5, fromLocationId := none, moveDatetime := none }
    5 (by decide) rfl rfl rfl

/-! ## Behaviour of placement creation -/

theorem findAct_baseCancel (s : Sys) (i j : Nat) :
    findAct (baseCancel s i).activities j =
      (findAct s.activities j).map (fun a => if a.id == i then
        { a with state := .cancelled, dateTerminated := some s.now, sequence := s.nextSeq }
        else a) := by
  simp only [baseCancel]
  exact findAct_updActs _ _ _ _ (by intro x; rfl)

theorem findAct_foldl_baseCancel_ne (L : List Nat) (s : Sys) (j : Nat)
    (h : ∀ i ∈ L, i ≠ j) :
    findAct (L.foldl baseCancel s).activities j = findAct s.activities j := by
  induction L generalizing s with
  | nil => rfl
  | cons i t ih =>
    rw [List.foldl_cons, ih (baseCancel s i) (fun x hx => h x (List.mem_cons_of_mem _ hx))]
    simp only [baseCancel]
    exact findAct_updActs_ne _ _ _ _ (by intro x; rfl) (Ne.symm (h i (List.mem_cons_self i t)))

theorem findAct_foldl_baseCancel_mem : ∀ (L : List Nat) (s : Sys) (j : Nat),
    j ∈ L → (findAct s.activities j).isSome = true →
    ∃ a', findAct (L.foldl baseCancel s).activities j = some a' ∧
      a'.state = .cancelled := by
  intro L
  induction L with
  | nil =>
    intro s j hj hex
    exact absurd hj (List.not_mem_nil j)
  | cons i t ih =>
    intro s j hj hex
    rw [List.foldl_cons]
    by_cases hjt : j ∈ t
    · refine ih (baseCancel s i) j hjt ?_
      rw [findAct_baseCancel]
      simpa using hex
    · have hji : j = i := by
        rcases List.mem_cons.mp hj with h1 | h1
        · exact h1
        · exact absurd h1 hjt
      subst hji
      rw [findAct_foldl_baseCancel_ne t _ j (by intro x hx he; exact hjt (he ▸ hx))]
      rw [findAct_baseCancel]
      cases hfa : findAct s.activities j with
      | none =>
        rw [hfa] at hex
        exact absurd hex (by simp)
      | some b =>
        have hb := List.find?_some
          (show List.find? (fun x : Activity => x.id == j) s.activities = some b from hfa)
        have hb' : (b.id == j) = true := hb
        simp only [Option.map_some']
        rw [if_pos hb']
        exact ⟨_, rfl, rfl⟩

/-- C1: creating a new Placement cancels every other non-terminal Placement
of the same patient, and the newly created Placement itself is left in a
non-terminal (open) state. -/
theorem claim_C1 (s : Sys) (vals : PlacementData)
    (hwf : ∀ a ∈ s.activities, a.id < s.nextId) :
    (∀ a ∈ s.activities, a.isOpenPlacementFor vals.patientId = true →
      ∃ a', findAct (NhClinicalPatientPlacement.create s vals).2.activities a.id = some a' ∧
        a'.state = .cancelled) ∧
    (∃ b, findAct (NhClinicalPatientPlacement.create s vals).2.activities
        (NhClinicalPatientPlacement.create s vals).1 = some b ∧
      b.state ≠ .completed ∧ b.state ≠ .cancelled) := by
  have hrun : (NhClinicalPatientPlacement.create s vals).2 =
      (((openPlacementIds (createActivity s none none (.placement vals)).2
          vals.patientId).filter fun i => i ≠ s.nextId).foldl baseCancel
        (createActivity s none none (.placement vals)).2) := rfl
  constructor
  · intro a hmem hopen
    rw [hrun]
    apply findAct_foldl_baseCancel_mem
    · apply List.mem_filter.mpr
      constructor
      · exact List.mem_map.mpr ⟨a, List.mem_filter.mpr
          ⟨List.mem_append_left _ hmem, hopen⟩, rfl⟩
      · simpa using Nat.ne_of_lt (hwf a hmem)
    · apply List.find?_isSome.mpr
      exact ⟨a, List.mem_append_left _ hmem, by simp⟩
  · rw [hrun]
    rw [findAct_foldl_baseCancel_ne _ _ _
      (by intro x hx; exact of_decide_eq_true (List.mem_filter.mp hx).2)]
    have hfresh : findAct (s.activities ++
        [{ id := s.nextId, state := .draft, parentId := none, creatorId := none,
           sequence := s.nextSeq, dateTerminated := none,
           data := .placement vals }]) s.nextId =
        some { id := s.nextId, state := .draft, parentId := none, creatorId := none,
               sequence := s.nextSeq, dateTerminated := none,
               data := .placement vals } := by
      rw [findAct_append_fresh _ _ _ (fun a ha => Nat.ne_of_lt (hwf a ha))]
      simp
    exact ⟨_, hfresh, by simp, by simp⟩

/-- C1 witness: creating a placement for patient 104 in `exS` cancels the two
open placements 6 and 7 of that patient and leaves the new placement open. -/
theorem claim_C1_witness :
    (∀ a ∈ exS.activities, a.isOpenPlacementFor 104 = true →
      ∃ a', findAct (NhClinicalPatientPlacement.create exS
          { patientId := 104, suggestedLocationId := 1, locationId := none }).2.activities
          a.id = some a' ∧ a'.state = .cancelled) ∧
    (∃ b, findAct (NhClinicalPatientPlacement.create exS
        { patientId := 104, suggestedLocationId := 1, locationId := none }).2.activities
        (NhClinicalPatientPlacement.create exS
          { patientId := 104, suggestedLocationId := 1, locationId := none }).1 = some b ∧
      b.state ≠ .completed ∧ b.state ≠ .cancelled) :=
  claim_C1 exS { patientId := 104, suggestedLocationId := 1, locationId := none }
    (by decide)

/-! ## Admission submit and placement complete -/

/-- C5: Admission submit fails "Patient required for admission" (state
unchanged) when `patient_id` is absent from the submitted values, fails
"already admitted" (state unchanged) when an open spell exists for the
patient, and succeeds when a patient with no open spell is supplied. -/
theorem claim_C5 (s : Sys) (aid : Nat) (v : AdmissionVals) :
    (v.patientId = none →
      nh_clinical_patient_admission.submit s aid v =
        (some .patientRequiredForAdmission, s)) ∧
    (∀ pid sp, v.patientId = some pid → openSpellAct s pid = some sp →
      nh_clinical_patient_admission.submit s aid v = (some (.alreadyAdmitted pid), s)) ∧
    (∀ pid, v.patientId = some pid → openSpellAct s pid = none →
      (nh_clinical_patient_admission.submit s aid v).1 = none) := by
  refine ⟨?_, ?_, ?_⟩
  · intro h
    simp [nh_clinical_patient_admission.submit, h]
  · intro pid sp h1 h2
    simp [nh_clinical_patient_admission.submit, h1, h2]
  · intro pid h1 h2
    simp [nh_clinical_patient_admission.submit, h1, h2]

/-- C5 witness: in `exS`, submitting the admission activity 8 without a
patient fails "required", with patient 101 (open spell 1) fails "already
admitted", and with patient 104 (no open spell) succeeds. -/
theorem claim_C5_witness :
    nh_clinical_patient_admission.submit exS 8
        { patientId := none, posId := none, locationId := none, startDate := none } =
      (some .patientRequiredForAdmission, exS) ∧
    nh_clinical_patient_admission.submit exS 8
        { patientId := some 101, posId := none, locationId := none, startDate := none } =
      (some (.alreadyAdmitted 101), exS) ∧
    (nh_clinical_patient_admission.submit exS 8
        { patientId := some 104, posId := some 10, locationId := some 1,
          startDate := none }).1 = none :=
  ⟨(claim_C5 exS 8 _).1 rfl,
   (claim_C5 exS 8 _).2.1 101
     { id := 1, state := .started, parentId := none, creatorId := none, sequence := 1,
       dateTerminated := none,
       data := .spell { patientId := 101, locationId := some 2, posId := 10 } }
     rfl (by decide),
   (claim_C5 exS 8 _).2.2 104 rfl (by decide)⟩

theorem findAct_baseComplete (s : Sys) (i j : Nat) :
    findAct (baseComplete s i).activities j =
      (findAct s.activities j).map (fun a => if a.id == i then
        { a with state := .completed, dateTerminated := some s.now, sequence := s.nextSeq }
        else a) := by
  simp only [baseComplete]
  exact findAct_updActs _ _ _ _ (by intro x; rfl)

theorem findAct_baseComplete_self (s : Sys) (i : Nat) :
    findAct (baseComplete s i).activities i =
      (findAct s.activities i).map (fun a =>
        { a with
          state := .completed
          dateTerminated := some s.now
          sequence := s.nextSeq }) := by
  simp only [baseComplete]
  exact findAct_updActs_self _ _ _ (by intro x; rfl)

theorem openSpellAct_baseComplete_none (s : Sys) (aid pid : Nat)
    (h : openSpellAct s pid = none) :
    openSpellAct (baseComplete s aid) pid = none := by
  unfold openSpellAct at *
  rw [List.find?_eq_none] at *
  intro x hx
  simp only [baseComplete, updActs] at hx
  obtain ⟨y, hy, hxy⟩ := List.mem_map.mp hx
  by_cases hyid : (y.id == aid) = true
  · rw [if_pos hyid] at hxy
    subst hxy
    cases hdy : y.data <;> simp [hdy]
  · rw [if_neg (by simpa using hyid)] at hxy
    subst hxy
    exact h y hy

/-- C10: Placement complete is not atomic w.r.t. its "No open spell found"
error: the missing-location check fires before any state change (the state is
returned untouched), while the open-spell lookup runs after the base
completion, so when "No open spell found" is raised the placement activity
has already been marked completed. -/
theorem claim_C10 (s : Sys) (aid : Nat) (a : Activity) (d : PlacementData)
    (ha : findAct s.activities aid = some a) (hd : a.data = .placement d) :
    (d.locationId = none →
      NhClinicalPatientPlacement.complete s aid =
        (some (.placementWithoutLocation aid), s)) ∧
    (∀ loc, d.locationId = some loc → openSpellAct s d.patientId = none →
      (NhClinicalPatientPlacement.complete s aid).1 = some (.noOpenSpell d.patientId) ∧
      ∃ a', findAct (NhClinicalPatientPlacement.complete s aid).2.activities aid = some a' ∧
        a'.state = .completed) := by
  constructor
  · intro hln
    simp [NhClinicalPatientPlacement.complete, ha, hd, hln]
  · intro loc hloc hns
    have h2 : openSpellAct (baseComplete s aid) d.patientId = none :=
      openSpellAct_baseComplete_none s aid d.patientId hns
    simp only [NhClinicalPatientPlacement.complete, ha, hd, hloc, h2]
    refine ⟨by trivial, ?_⟩
    rw [findAct_baseComplete_self, ha]
    exact ⟨_, rfl, rfl⟩

/-- C10 witness: in `exS`, completing placement 6 (no location) raises the
location error with the state untouched, while completing placement 7
(location set, patient 104 has no open spell) raises "No open spell found"
with the placement already marked completed. -/
theorem claim_C10_witness :
    (NhClinicalPatientPlacement.complete exS 6 =
      (some (.placementWithoutLocation 6), exS)) ∧
    ((NhClinicalPatientPlacement.complete exS 7).1 = some (.noOpenSpell 104) ∧
      ∃ a', findAct (NhClinicalPatientPlacement.complete exS 7).2.activities 7 = some a' ∧
        a'.state = .completed) :=
  ⟨(claim_C10 exS 6
      { id := 6, state := .scheduled, parentId := none, creatorId := none, sequence := 6,
        dateTerminated := none,
        data := .placement { patientId := 104, suggestedLocationId := 1, locationId := none } }
      { patientId := 104, suggestedLocationId := 1, locationId := none }
      (by decide) rfl).1 rfl,
   (claim_C10 exS 7
      { id := 7, state := .scheduled, parentId := none, creatorId := none, sequence := 7,
        dateTerminated := none,
        data := .placement { patientId := 104, suggestedLocationId := 1, locationId := some 5 } }
      { patientId := 104, suggestedLocationId := 1, locationId := some 5 }
      (by decide) rfl).2 5 rfl (by decide)⟩

/-! ## Swap-beds submit -/

/-- C4: swap-beds submit — after delegating to the base submit first (the
returned state is the post-base-submit state in every outcome) — fails
"No patient in location" when either location is unoccupied, fails
"different wards" when the two locations do not resolve to the same nearest
ward ancestor, and succeeds if and only if both beds hold a patient and
share the same nearest ward ancestor. -/
theorem claim_C4 (s : Sys) (aid : Nat) (v : SwapVals) (act : Activity) (d : SwapData)
    (l1 l2 : Nat)
    (ha : findAct (baseSubmitSwap s aid v).activities aid = some act)
    (hd : act.data = .swap d)
    (h1 : d.location1Id = some l1) (h2 : d.location2Id = some l2) :
    ((nh_clinical_patient_swap_beds.submit s aid v).1 = none ↔
      (pidsAt s (some l1) ≠ [] ∧ pidsAt s (some l2) ≠ [] ∧
        closestWard s l1 = closestWard s l2)) ∧
    (pidsAt s (some l1) = [] →
      (nh_clinical_patient_swap_beds.submit s aid v).1 = some (.noPatientInLocation l1)) ∧
    (pidsAt s (some l1) ≠ [] → pidsAt s (some l2) = [] →
      (nh_clinical_patient_swap_beds.submit s aid v).1 = some (.noPatientInLocation l2)) ∧
    (pidsAt s (some l1) ≠ [] → pidsAt s (some l2) ≠ [] →
      closestWard s l1 ≠ closestWard s l2 →
      (nh_clinical_patient_swap_beds.submit s aid v).1 = some .differentWards) ∧
    (nh_clinical_patient_swap_beds.submit s aid v).2 = baseSubmitSwap s aid v := by
  have e1 : pidsAt (baseSubmitSwap s aid v) = pidsAt s := rfl
  have e2 : closestWard (baseSubmitSwap s aid v) = closestWard s := rfl
  simp only [nh_clinical_patient_swap_beds.submit, ha, hd, h1, h2, e1, e2]
  by_cases hp1 : pidsAt s (some l1) = [] <;>
    by_cases hp2 : pidsAt s (some l2) = [] <;>
      by_cases hw : closestWard s l1 = closestWard s l2 <;>
        simp [hp1, hp2, hw]

/-- C4 witness: in `exS`, submitting the swap of beds 2 and 3 (both occupied,
both under ward 1) succeeds, and the success criterion evaluates as claimed. -/
theorem claim_C4_witness :
    ((nh_clinical_patient_swap_beds.submit exS 3
        { location1Id := none, location2Id := none }).1 = none ↔
      (pidsAt exS (some 2) ≠ [] ∧ pidsAt exS (some 3) ≠ [] ∧
        closestWard exS 2 = closestWard exS 3)) ∧
    (pidsAt exS (some 2) = [] →
      (nh_clinical_patient_swap_beds.submit exS 3
        { location1Id := none, location2Id := none }).1 = some (.noPatientInLocation 2)) ∧
    (pidsAt exS (some 2) ≠ [] → pidsAt exS (some 3) = [] →
      (nh_clinical_patient_swap_beds.submit exS 3
        { location1Id := none, location2Id := none }).1 = some (.noPatientInLocation 3)) ∧
    (pidsAt exS (some 2) ≠ [] → pidsAt exS (some 3) ≠ [] →
      closestWard exS 2 ≠ closestWard exS 3 →
      (nh_clinical_patient_swap_beds.submit exS 3
        { location1Id := none, location2Id := none }).1 = some .differentWards) ∧
    (nh_clinical_patient_swap_beds.submit exS 3
        { location1Id := none, location2Id := none }).2 =
      baseSubmitSwap exS 3 { location1Id := none, location2Id := none } :=
  claim_C4 exS 3 { location1Id := none, location2Id := none }
    { id := 3, state := .started, parentId := none, creatorId := none, sequence := 3,
      dateTerminated := none,
      data := .swap { location1Id := some 2, location2Id := some 3 } }
    { location1Id := some 2, location2Id := some 3 }
    2 3 (by decide) rfl rfl rfl

/-! ## Swap-beds complete -/

theorem findAct_baseComplete_ne (s : Sys) (i j : Nat) (hne : j ≠ i) :
    findAct (baseComplete s i).activities j = findAct s.activities j := by
  simp only [baseComplete]
  exact findAct_updActs_ne _ _ _ _ (by intro x; rfl) hne

theorem openSpellAct_mem (s : Sys) (pid : Nat) (sp : Activity)
    (h : openSpellAct s pid = some sp) : sp ∈ s.activities := by
  unfold openSpellAct at h
  exact List.mem_of_find?_eq_some h

theorem findAct_mem (l : List Activity) (i : Nat) (a : Activity)
    (h : findAct l i = some a) : a ∈ l := by
  unfold findAct at h
  exact List.mem_of_find?_eq_some h

theorem findAct_id (l : List Activity) (i : Nat) (a : Activity)
    (h : findAct l i = some a) : a.id = i := by
  unfold findAct at h
  have h2 := List.find?_some h
  have h3 : (a.id == i) = true := h2
  simpa using h3

/-- C3: completing a swap of occupied beds `l1` (patient `p1`, open spell
`sp1`) and `l2` (patient `p2`, open spell `sp2`) succeeds; it creates one
movement per patient targeting the other patient's bed — each parented under
that patient's own spell activity with `creator_id` set to the swap activity
— and completes both; afterwards `p1`'s current location is `l2` and `p2`'s
is `l1`; the final emitted event is the swap's own base completion. -/
theorem claim_C3 (s : Sys) (aid : Nat) (act : Activity) (d : SwapData)
    (l1 l2 p1 p2 : Nat) (sp1 sp2 : Activity)
    (hwf : ∀ a ∈ s.activities, a.id < s.nextId)
    (ha : findAct s.activities aid = some act)
    (hd : act.data = .swap d)
    (h1 : d.location1Id = some l1) (h2 : d.location2Id = some l2)
    (hp1 : (pidsAt s (some l1)).head? = some p1)
    (hp2 : (pidsAt s (some l2)).head? = some p2)
    (hpne : p1 ≠ p2)
    (hs1 : openSpellAct s p1 = some sp1)
    (hs2 : openSpellAct s p2 = some sp2)
    (hna1 : sp1.id ≠ aid) (hna2 : sp2.id ≠ aid) :
    (nh_clinical_patient_swap_beds.complete s aid).1 = none ∧
    (∃ m1 dm1, findAct (nh_clinical_patient_swap_beds.complete s aid).2.activities s.nextId
        = some m1 ∧
      m1.state = .completed ∧ m1.parentId = some sp1.id ∧ m1.creatorId = some aid ∧
      m1.data = .move dm1 ∧ dm1.patientId = p1 ∧ dm1.locationId = some l2) ∧
    (∃ m2 dm2, findAct (nh_clinical_patient_swap_beds.complete s aid).2.activities
        (s.nextId + 1) = some m2 ∧
      m2.state = .completed ∧ m2.parentId = some sp2.id ∧ m2.creatorId = some aid ∧
      m2.data = .move dm2 ∧ dm2.patientId = p2 ∧ dm2.locationId = some l1) ∧
    (findPat (nh_clinical_patient_swap_beds.complete s aid).2.patients p1 =
      (findPat s.patients p1).map (fun p => { p with currentLocationId := some l2 })) ∧
    (findPat (nh_clinical_patient_swap_beds.complete s aid).2.patients p2 =
      (findPat s.patients p2).map (fun p => { p with currentLocationId := some l1 })) ∧
    (∃ sw, findAct (nh_clinical_patient_swap_beds.complete s aid).2.activities aid = some sw ∧
      sw.state = .completed) ∧
    (∃ t, (nh_clinical_patient_swap_beds.complete s aid).2.log = t ++ [Ev.baseComplete aid]) := by
  have haidlt : aid < s.nextId := by
    have hm := findAct_mem s.activities aid act ha
    have hid := findAct_id s.activities aid act ha
    have := hwf act hm
    rwa [hid] at this
  have hsp1lt : sp1.id < s.nextId := hwf sp1 (openSpellAct_mem s p1 sp1 hs1)
  have hsp2lt : sp2.id < s.nextId := hwf sp2 (openSpellAct_mem s p2 sp2 hs2)
  set dat1 : MoveData := { patientId := p1, locationId := some l2, fromLocationId := none, moveDatetime := none } with hdat1
  set dat2 : MoveData := { patientId := p2, locationId := some l1, fromLocationId := none, moveDatetime := none } with hdat2
  set A1 : Activity := { id := s.nextId, state := .draft, parentId := some sp1.id, creatorId := some aid, sequence := s.nextSeq, dateTerminated := none, data := .move dat1 } with hA1
  set A2 : Activity := { id := s.nextId + 1, state := .draft, parentId := some sp2.id, creatorId := some aid, sequence := s.nextSeq + 1, dateTerminated := none, data := .move dat2 } with hA2
  set S2 : Sys := { s with activities := (s.activities ++ [A1]) ++ [A2], nextId := s.nextId + 1 + 1, nextSeq := s.nextSeq + 1 + 1, log := (s.log ++ [Ev.createActivity s.nextId]) ++ [Ev.createActivity (s.nextId + 1)] } with hS2
  have hrun : nh_clinical_patient_swap_beds.complete s aid =
      (match nh_clinical_patient_move.complete S2 s.nextId with
       | (some e, s') => (some e, s')
       | (none, s3) =>
         match nh_clinical_patient_move.complete s3 (s.nextId + 1) with
         | (some e, s') => (some e, s')
         | (none, s4) => (none, baseComplete s4 aid)) := by
    simp only [nh_clinical_patient_swap_beds.complete, ha, hd, h1, h2, hp1, hp2, hs1, hs2,
      Option.map_some', createActivity, hS2, hA1, hA2, hdat1, hdat2]
  rw [hrun]
  have hfind1 : findAct S2.activities s.nextId = some A1 := by
    show findAct ((s.activities ++ [A1]) ++ [A2]) s.nextId = some A1
    apply findAct_append_left
    rw [findAct_append_fresh _ _ _ (fun a hmem => Nat.ne_of_lt (hwf a hmem))]
    simp [hA1]
  have hfind2 : findAct S2.activities (s.nextId + 1) = some A2 := by
    show findAct ((s.activities ++ [A1]) ++ [A2]) (s.nextId + 1) = some A2
    rw [findAct_append_fresh _ _ _ (by
      intro a hmem
      rcases List.mem_append.mp hmem with hsa | hA1m
      · exact Nat.ne_of_lt (Nat.lt_succ_of_lt (hwf a hsa))
      · rw [List.mem_singleton.mp hA1m, hA1]
        simp)]
    simp [hA2]
  have hfindAid2 : findAct S2.activities aid = some act := by
    show findAct ((s.activities ++ [A1]) ++ [A2]) aid = some act
    exact findAct_append_left _ _ _ _ (findAct_append_left _ _ _ _ ha)
  cases hmc1 : nh_clinical_patient_move.complete S2 s.nextId with
  | mk e1 S3 =>
    cases e1 with
    | some err =>
      exfalso
      have hf := move_complete_fst S2 s.nextId A1 dat1 l2 hfind1 rfl rfl
      rw [hmc1] at hf
      simp at hf
    | none =>
      have hnep1 : sp1.id ≠ s.nextId := Nat.ne_of_lt hsp1lt
      have hia3 : findAct S3.activities s.nextId = some { A1 with
          state := .completed, dateTerminated := some S2.now, sequence := S2.nextSeq,
          data := .move { dat1 with
            fromLocationId := mcFrom S2 dat1.patientId,
            moveDatetime := some (dat1.moveDatetime.getD S2.now) } } := by
        have h := move_complete_act_self S2 s.nextId sp1.id A1 dat1 l2 hfind1 rfl rfl rfl hnep1
        rw [hmc1] at h
        exact h
      have hother3 : ∀ j, j ≠ s.nextId → j ≠ sp1.id →
          findAct S3.activities j = findAct S2.activities j := by
        intro j hj1 hj2
        have h := move_complete_act_other S2 s.nextId sp1.id j A1 dat1 l2
          hfind1 rfl rfl rfl hnep1 hj1 hj2
        rw [hmc1] at h
        exact h
      have hpat3self : findPat S3.patients p1 =
          (findPat S2.patients p1).map (fun p => { p with currentLocationId := some l2 }) := by
        have h := move_complete_pat_self S2 s.nextId A1 dat1 l2 hfind1 rfl rfl
        rw [hmc1] at h
        exact h
      have hpat3other : ∀ q, q ≠ p1 → findPat S3.patients q = findPat S2.patients q := by
        intro q hq
        have h := move_complete_pat_other S2 s.nextId q A1 dat1 l2 hfind1 rfl rfl hq
        rw [hmc1] at h
        exact h
      have hfind2' : findAct S3.activities (s.nextId + 1) = some A2 := by
        rw [hother3 (s.nextId + 1) (by omega) (by omega), hfind2]
      cases hmc2 : nh_clinical_patient_move.complete S3 (s.nextId + 1) with
      | mk e2 S4 =>
        cases e2 with
        | some err =>
          exfalso
          have hf := move_complete_fst S3 (s.nextId + 1) A2 dat2 l1 hfind2' rfl rfl
          rw [hmc2] at hf
          simp at hf
        | none =>
          have hnep2 : sp2.id ≠ s.nextId + 1 := by omega
          have hia4 : findAct S4.activities (s.nextId + 1) = some { A2 with
              state := .completed, dateTerminated := some S3.now, sequence := S3.nextSeq,
              data := .move { dat2 with
                fromLocationId := mcFrom S3 dat2.patientId,
                moveDatetime := some (dat2.moveDatetime.getD S3.now) } } := by
            have h := move_complete_act_self S3 (s.nextId + 1) sp2.id A2 dat2 l1
              hfind2' rfl rfl rfl hnep2
            rw [hmc2] at h
            exact h
          have hother4 : ∀ j, j ≠ s.nextId + 1 → j ≠ sp2.id →
              findAct S4.activities j = findAct S3.activities j := by
            intro j hj1 hj2
            have h := move_complete_act_other S3 (s.nextId + 1) sp2.id j A2 dat2 l1
              hfind2' rfl rfl rfl hnep2 hj1 hj2
            rw [hmc2] at h
            exact h
          have hpat4self : findPat S4.patients p2 =
              (findPat S3.patients p2).map
                (fun p => { p with currentLocationId := some l1 }) := by
            have h := move_complete_pat_self S3 (s.nextId + 1) A2 dat2 l1 hfind2' rfl rfl
            rw [hmc2] at h
            exact h
          have hpat4other : ∀ q, q ≠ p2 → findPat S4.patients q = findPat S3.patients q := by
            intro q hq
            have h := move_complete_pat_other S3 (s.nextId + 1) q A2 dat2 l1
              hfind2' rfl rfl hq
            rw [hmc2] at h
            exact h
          dsimp only
          rw [hmc2]
          refine ⟨rfl, ?_, ?_, ?_, ?_, ?_, ?_⟩
          · rw [show findAct (baseComplete S4 aid).activities s.nextId =
                findAct S4.activities s.nextId from
                  findAct_baseComplete_ne S4 aid s.nextId (Ne.symm (Nat.ne_of_lt haidlt))]
            rw [hother4 s.nextId (by omega) (Ne.symm (Nat.ne_of_lt hsp2lt)), hia3]
            exact ⟨_, _, rfl, rfl, rfl, rfl, rfl, rfl, rfl⟩
          · rw [show findAct (baseComplete S4 aid).activities (s.nextId + 1) =
                findAct S4.activities (s.nextId + 1) from
                  findAct_baseComplete_ne S4 aid (s.nextId + 1) (by omega)]
            rw [hia4]
            exact ⟨_, _, rfl, rfl, rfl, rfl, rfl, rfl, rfl⟩
          · show findPat S4.patients p1 = _
            rw [hpat4other p1 hpne, hpat3self]
          · show findPat S4.patients p2 = _
            rw [hpat4self, hpat3other p2 (Ne.symm hpne)]
          · rw [findAct_baseComplete_self]
            rw [hother4 aid (by omega) (Ne.symm hna2)]
            rw [hother3 aid (Nat.ne_of_lt haidlt) (Ne.symm hna1)]
            rw [hfindAid2]
            exact ⟨_, rfl, rfl⟩
          · exact ⟨S4.log, rfl⟩

/-- C3 witness: swapping beds 2 (patient 101, spell 1) and 3 (patient 102,
spell 2) in `exS` creates movements 9 and 10, completes them, moves 101 to
bed 3 and 102 to bed 2, and completes the swap activity 3 last. -/
theorem claim_C3_witness :
    (nh_clinical_patient_swap_beds.complete exS 3).1 = none ∧
    (∃ m1 dm1, findAct (nh_clinical_patient_swap_beds.complete exS 3).2.activities 9
        = some m1 ∧
      m1.state = .completed ∧ m1.parentId = some 1 ∧ m1.creatorId = some 3 ∧
      m1.data = .move dm1 ∧ dm1.patientId = 101 ∧ dm1.locationId = some 3) ∧
    (∃ m2 dm2, findAct (nh_clinical_patient_swap_beds.complete exS 3).2.activities 10
        = some m2 ∧
      m2.state = .completed ∧ m2.parentId = some 2 ∧ m2.creatorId = some 3 ∧
      m2.data = .move dm2 ∧ dm2.patientId = 102 ∧ dm2.locationId = some 2) ∧
    (findPat (nh_clinical_patient_swap_beds.complete exS 3).2.patients 101 =
      (findPat exS.patients 101).map (fun p => { p with currentLocationId := some 3 })) ∧
    (findPat (nh_clinical_patient_swap_beds.complete exS 3).2.patients 102 =
      (findPat exS.patients 102).map (fun p => { p with currentLocationId := some 2 })) ∧
    (∃ sw, findAct (nh_clinical_patient_swap_beds.complete exS 3).2.activities 3 = some sw ∧
      sw.state = .completed) ∧
    (∃ t, (nh_clinical_patient_swap_beds.complete exS 3).2.log = t ++ [Ev.baseComplete 3]) :=
  claim_C3 exS 3
    { id := 3, state := .started, parentId := none, creatorId := none, sequence := 3,
      dateTerminated := none,
      data := .swap { location1Id := some 2, location2Id := some 3 } }
    { location1Id := some 2, location2Id := some 3 }
    2 3 101 102
    { id := 1, state := .started, parentId := none, creatorId := none, sequence := 1,
      dateTerminated := none,
      data := .spell { patientId := 101, locationId := some 2, posId := 10 } }
    { id := 2, state := .started, parentId := none, creatorId := none, sequence := 2,
      dateTerminated := none,
      data := .spell { patientId := 102, locationId := some 3, posId := 10 } }
    (by decide) (by decide) rfl rfl rfl (by decide) (by decide) (by decide)
    (by decide) (by decide) (by decide) (by decide)

/-! ## Discharge complete -/

theorem updActs_ids_lt (l : List Activity) (i n : Nat) (f : Activity → Activity)
    (hf : ∀ x, (f x).id = x.id) (h : ∀ a ∈ l, a.id < n) :
    ∀ a ∈ updActs l i f, a.id < n := by
  intro a hmem
  obtain ⟨y, hy, hxy⟩ := List.mem_map.mp hmem
  subst hxy
  by_cases hc : (y.id == i) = true
  · rw [if_pos hc, hf]
    exact h y hy
  · rw [if_neg (by simpa using hc)]
    exact h y hy

/-- C7: discharge complete defers to base completion first (the first emitted
event is the discharge's own base completion), then creates a movement to the
resolved discharge destination — the location with the fixed code, else the
admitting POS's default location — carrying the discharge's own
`discharge_date` as the movement timestamp; it completes that movement,
completes the parent spell, and the spell's final `date_terminated` is the
`discharge_date` when one was provided (the base completion's timestamp
otherwise). -/
theorem claim_C7 (s : Sys) (aid par loc : Nat) (act spa : Activity) (d : DischargeData)
    (sd : SpellData)
    (hwf : ∀ a ∈ s.activities, a.id < s.nextId)
    (ha : findAct s.activities aid = some act)
    (hd : act.data = .discharge d)
    (hp : act.parentId = some par)
    (hpne : par ≠ aid)
    (hspa : findAct s.activities par = some spa)
    (hsd : spa.data = .spell sd)
    (hloc : dischargeDestination s sd = some loc) :
    (nh_clinical_patient_discharge.complete s aid).1 = none ∧
    (∃ t, (nh_clinical_patient_discharge.complete s aid).2.log =
      s.log ++ Ev.baseComplete aid :: t) ∧
    (∃ m dm, findAct (nh_clinical_patient_discharge.complete s aid).2.activities s.nextId
        = some m ∧
      m.state = .completed ∧ m.parentId = some par ∧ m.creatorId = some aid ∧
      m.data = .move dm ∧ dm.patientId = d.patientId ∧ dm.locationId = some loc ∧
      dm.moveDatetime = some (d.dischargeDate.getD s.now)) ∧
    (∃ sp', findAct (nh_clinical_patient_discharge.complete s aid).2.activities par
        = some sp' ∧
      sp'.state = .completed ∧
      sp'.dateTerminated = some (d.dischargeDate.getD s.now)) ∧
    (∃ da, findAct (nh_clinical_patient_discharge.complete s aid).2.activities aid
        = some da ∧ da.state = .completed) := by
  have haidlt : aid < s.nextId := by
    have hm := findAct_mem s.activities aid act ha
    have hid := findAct_id s.activities aid act ha
    have := hwf act hm
    rwa [hid] at this
  have hparlt : par < s.nextId := by
    have hm := findAct_mem s.activities par spa hspa
    have hid := findAct_id s.activities par spa hspa
    have := hwf spa hm
    rwa [hid] at this
  set DM : MoveData := { patientId := d.patientId, locationId := some loc, fromLocationId := none, moveDatetime := d.dischargeDate } with hDM
  set REC : Activity := { id := s.nextId, state := .draft, parentId := some par, creatorId := some aid, sequence := s.nextSeq + 1, dateTerminated := none, data := .move DM } with hREC
  set S2 : Sys := { s with activities := updActs s.activities aid (fun a => { a with state := .completed, dateTerminated := some s.now, sequence := s.nextSeq }) ++ [REC], nextId := s.nextId + 1, nextSeq := s.nextSeq + 1 + 1, log := (s.log ++ [Ev.baseComplete aid]) ++ [Ev.createActivity s.nextId] } with hS2
  have hfre : findAct S2.activities s.nextId = some REC := by
    simp only [hS2]
    rw [findAct_append_fresh _ _ _
      (fun a hmem => Nat.ne_of_lt
        (updActs_ids_lt s.activities aid s.nextId _ (by intro x; rfl) hwf a hmem))]
    simp
  have hfpar : findAct S2.activities par = some spa := by
    simp only [hS2]
    apply findAct_append_left
    rw [findAct_updActs_ne _ _ _ _ (by intro x; rfl) hpne]
    exact hspa
  have hfaid : findAct S2.activities aid = some { act with
      state := .completed, dateTerminated := some s.now, sequence := s.nextSeq } := by
    simp only [hS2]
    apply findAct_append_left
    rw [findAct_updActs_self _ _ _ (by intro x; rfl), ha]
    rfl
  suffices hsuff : ∀ R : Option Err × Sys,
      R = (match nh_clinical_patient_move.complete S2 s.nextId with
           | (some e, s') => (some e, s')
           | (none, s3) =>
             match d.dischargeDate with
             | some dd => (none, { baseComplete s3 par with
                 activities := (updActs (baseComplete s3 par).activities par
                   (fun a => { a with dateTerminated := some dd })) })
             | none => (none, baseComplete s3 par)) →
      R.1 = none ∧
      (∃ t, R.2.log = s.log ++ Ev.baseComplete aid :: t) ∧
      (∃ m dm, findAct R.2.activities s.nextId = some m ∧
        m.state = .completed ∧ m.parentId = some par ∧ m.creatorId = some aid ∧
        m.data = .move dm ∧ dm.patientId = d.patientId ∧ dm.locationId = some loc ∧
        dm.moveDatetime = some (d.dischargeDate.getD s.now)) ∧
      (∃ sp', findAct R.2.activities par = some sp' ∧
        sp'.state = .completed ∧
        sp'.dateTerminated = some (d.dischargeDate.getD s.now)) ∧
      (∃ da, findAct R.2.activities aid = some da ∧ da.state = .completed) by
    have hrun : nh_clinical_patient_discharge.complete s aid =
        (match nh_clinical_patient_move.complete S2 s.nextId with
         | (some e, s') => (some e, s')
         | (none, s3) =>
           match d.dischargeDate with
           | some dd => (none, { baseComplete s3 par with
               activities := (updActs (baseComplete s3 par).activities par
                 (fun a => { a with dateTerminated := some dd })) })
           | none => (none, baseComplete s3 par)) := by
      have hfa1 : findAct (updActs s.activities aid
          (fun a => { a with state := .completed, dateTerminated := some s.now, sequence := s.nextSeq })) par = some spa := by
        rw [findAct_updActs_ne _ _ _ _ (by intro x; rfl) hpne]
        exact hspa
      cases hdl : findDischargeLocation s with
      | some l0 =>
        have hlid : l0.id = loc := by
          have h2 := hloc
          simp only [dischargeDestination, hdl] at h2
          exact Option.some.inj h2
        simp only [findDischargeLocation] at hdl
        simp only [nh_clinical_patient_discharge.complete, ha, hd, hp, createActivity,
          baseComplete, findDischargeLocation, hS2, hREC, hDM, hdl, hlid]
      | none =>
        have hpos : (findPos s.poses sd.posId).map (fun p => p.locationId) = some loc := by
          have h2 := hloc
          simp only [dischargeDestination, hdl] at h2
          exact h2
        simp only [findDischargeLocation] at hdl
        simp only [nh_clinical_patient_discharge.complete, ha, hd, hp, createActivity,
          baseComplete, findDischargeLocation, hS2, hREC, hDM, hdl, hfa1, hsd, hpos]
    rw [hrun]
    exact hsuff _ rfl
  intro R hR
  subst hR
  cases hmcv : nh_clinical_patient_move.complete S2 s.nextId with
  | mk e1 S3 =>
    cases e1 with
    | some err =>
      exfalso
      have hf := move_complete_fst S2 s.nextId REC DM loc hfre rfl rfl
      rw [hmcv] at hf
      simp at hf
    | none =>
      have hnepm : par ≠ s.nextId := Nat.ne_of_lt hparlt
      have hia3 : findAct S3.activities s.nextId = some { REC with
          state := .completed, dateTerminated := some S2.now, sequence := S2.nextSeq,
          data := .move { DM with
            fromLocationId := mcFrom S2 DM.patientId,
            moveDatetime := some (DM.moveDatetime.getD S2.now) } } := by
        have h := move_complete_act_self S2 s.nextId par REC DM loc hfre rfl rfl rfl hnepm
        rw [hmcv] at h
        exact h
      have hpar3 : findAct S3.activities par =
          some { spa with data := spa.data.setLocation (some loc) } := by
        have h := move_complete_act_parent S2 s.nextId par REC DM loc hfre rfl rfl rfl hnepm
        rw [hmcv, hfpar] at h
        exact h
      have hother3 : ∀ j, j ≠ s.nextId → j ≠ par →
          findAct S3.activities j = findAct S2.activities j := by
        intro j hj1 hj2
        have h := move_complete_act_other S2 s.nextId par j REC DM loc
          hfre rfl rfl rfl hnepm hj1 hj2
        rw [hmcv] at h
        exact h
      have hnow3 : S3.now = S2.now := by
        have h := move_complete_now S2 s.nextId REC DM loc hfre rfl rfl
        rw [hmcv] at h
        exact h
      have hlog3 : ∃ u, S3.log = S2.log ++ u := by
        have h := move_complete_log S2 s.nextId REC DM loc hfre rfl rfl
        rw [hmcv] at h
        exact h
      obtain ⟨u, hu⟩ := hlog3
      cases hdd : d.dischargeDate with
      | none =>
        refine ⟨rfl, ?_, ?_, ?_, ?_⟩
        · refine ⟨[Ev.createActivity s.nextId] ++ u ++ [Ev.baseComplete par], ?_⟩
          show S3.log ++ [Ev.baseComplete par] = _
          rw [hu]
          show ((s.log ++ [Ev.baseComplete aid]) ++ [Ev.createActivity s.nextId]) ++ u ++
            [Ev.baseComplete par] = _
          simp [List.append_assoc]
        · rw [findAct_baseComplete_ne S3 par s.nextId (Ne.symm hnepm), hia3]
          exact ⟨_, _, rfl, rfl, rfl, rfl, rfl, rfl, rfl, by simp [hDM, hdd, hS2]⟩
        · rw [findAct_baseComplete_self, hpar3]
          refine ⟨_, rfl, rfl, ?_⟩
          rw [hnow3]
          rfl
        · rw [findAct_baseComplete_ne S3 par aid (Ne.symm hpne)]
          rw [hother3 aid (Nat.ne_of_lt haidlt) (Ne.symm hpne), hfaid]
          exact ⟨_, rfl, rfl⟩
      | some dd =>
        refine ⟨rfl, ?_, ?_, ?_, ?_⟩
        · refine ⟨[Ev.createActivity s.nextId] ++ u ++ [Ev.baseComplete par], ?_⟩
          show S3.log ++ [Ev.baseComplete par] = _
          rw [hu]
          show ((s.log ++ [Ev.baseComplete aid]) ++ [Ev.createActivity s.nextId]) ++ u ++
            [Ev.baseComplete par] = _
          simp [List.append_assoc]
        · show (∃ m dm, findAct (updActs (baseComplete S3 par).activities par
              (fun a => { a with dateTerminated := some dd })) s.nextId = some m ∧ _)
          rw [findAct_updActs_ne _ _ _ _ (by intro x; rfl) (Ne.symm hnepm)]
          rw [findAct_baseComplete_ne S3 par s.nextId (Ne.symm hnepm), hia3]
          exact ⟨_, _, rfl, rfl, rfl, rfl, rfl, rfl, rfl, by simp [hDM, hdd, hS2]⟩
        · show (∃ sp', findAct (updActs (baseComplete S3 par).activities par
              (fun a => { a with dateTerminated := some dd })) par = some sp' ∧ _)
          rw [findAct_updActs_self _ _ _ (by intro x; rfl)]
          rw [findAct_baseComplete_self, hpar3]
          refine ⟨_, rfl, rfl, ?_⟩
          simp
        · show (∃ da, findAct (updActs (baseComplete S3 par).activities par
              (fun a => { a with dateTerminated := some dd })) aid = some da ∧ _)
          rw [findAct_updActs_ne _ _ _ _ (by intro x; rfl) (Ne.symm hpne)]
          rw [findAct_baseComplete_ne S3 par aid (Ne.symm hpne)]
          rw [hother3 aid (Nat.ne_of_lt haidlt) (Ne.symm hpne), hfaid]
          exact ⟨_, rfl, rfl⟩

/-- C7 witness: completing discharge 5 of patient 202 in `exD` emits the
base completion first, creates movement 9 to the coded discharge location 4
with the discharge date 600 as its timestamp, completes it, completes the
parent spell 4, and stamps the spell's termination with 600. -/
theorem claim_C7_witness :
    (nh_clinical_patient_discharge.complete exD 5).1 = none ∧
    (∃ t, (nh_clinical_patient_discharge.complete exD 5).2.log =
      exD.log ++ Ev.baseComplete 5 :: t) ∧
    (∃ m dm, findAct (nh_clinical_patient_discharge.complete exD 5).2.activities 9
        = some m ∧
      m.state = .completed ∧ m.parentId = some 4 ∧ m.creatorId = some 5 ∧
      m.data = .move dm ∧ dm.patientId = 202 ∧ dm.locationId = some 4 ∧
      dm.moveDatetime = some ((some 600).getD exD.now)) ∧
    (∃ sp', findAct (nh_clinical_patient_discharge.complete exD 5).2.activities 4
        = some sp' ∧
      sp'.state = .completed ∧
      sp'.dateTerminated = some ((some 600).getD exD.now)) ∧
    (∃ da, findAct (nh_clinical_patient_discharge.complete exD 5).2.activities 5
        = some da ∧ da.state = .completed) :=
  claim_C7 exD 5 4 4
    { id := 5, state := .started, parentId := some 4, creatorId := none, sequence := 5,
      dateTerminated := none,
      data := .discharge { patientId := 202, locationId := some 6, dischargeDate := some 600 } }
    { id := 4, state := .started, parentId := none, creatorId := none, sequence := 4,
      dateTerminated := none,
      data := .spell { patientId := 202, locationId := some 6, posId := 10 } }
    { patientId := 202, locationId := some 6, dischargeDate := some 600 }
    { patientId := 202, locationId := some 6, posId := 10 }
    (by decide) (by decide) rfl rfl (by decide) (by decide) rfl (by decide)

/-! ## Discharge cancel -/

/-- C8 counterexample: in `exD`, another completed discharge (activity 3,
parent spell completed) exists for patient 201, yet cancelling the completed
discharge 2 succeeds without any "already discharged" error — the defensive
re-check of discharge cancel is not about other completed discharges. -/
theorem claim_C8_counterexample :
    completedDischargeExistsExcept exD 201 2 = true ∧
    (nh_clinical_patient_discharge.cancel exD 2).1 = none := by
  decide

/-- C8 (amended): discharge cancel requires that no ACTIVE ADMISSION (a
completed admission whose parent spell is `started`) exists for the patient,
failing with the "already admitted" error — before any state is reverted
(the state is returned unchanged) — mirroring
`nh_clinical_patient_admission.get_last(…, exception='True')`. -/
theorem claim_C8 (s : Sys) (aid : Nat) (act : Activity) (d : DischargeData)
    (ha : findAct s.activities aid = some act)
    (hd : act.data = .discharge d)
    (hadm : activeAdmissionExists s d.patientId = true) :
    nh_clinical_patient_discharge.cancel s aid = (some (.alreadyAdmitted d.patientId), s) := by
  simp [nh_clinical_patient_discharge.cancel, ha, hd, hadm]

/-- C8 witness: patient 203 of `exD` has an active admission (completed
admission 6 under started spell 7), so cancelling their discharge 8 fails
"already admitted" with the state unchanged. -/
theorem claim_C8_witness :
    nh_clinical_patient_discharge.cancel exD 8 = (some (.alreadyAdmitted 203), exD) :=
  claim_C8 exD 8
    { id := 8, state := .started, parentId := some 7, creatorId := none, sequence := 8,
      dateTerminated := none,
      data := .discharge { patientId := 203, locationId := some 1, dischargeDate := none } }
    { patientId := 203, locationId := some 1, dischargeDate := none }
    (by decide) rfl (by decide)

/-- C6: cancelling a completed discharge (with no active admission for the
patient) reopens the parent spell — state back to `started`, termination
date cleared — and creates a movement (parent: the spell; creator: the
discharge) back to the pre-discharge location: completed directly to that
location when it is an available bed; otherwise re-targeted to the
location's closest ward ancestor (or the location itself when it is already
a ward) and completed there, followed by the admission-equivalent policy
trigger for that ward. -/
theorem claim_C6 (s : Sys) (aid par lid : Nat) (act spa : Activity) (d : DischargeData)
    (l : Location)
    (hwf : ∀ a ∈ s.activities, a.id < s.nextId)
    (ha : findAct s.activities aid = some act)
    (hd : act.data = .discharge d)
    (hadm : activeAdmissionExists s d.patientId = false)
    (hp : act.parentId = some par)
    (hpne : par ≠ aid)
    (hspa : findAct s.activities par = some spa)
    (hlid : d.locationId = some lid)
    (hthe : findLoc s.locations lid = some l) :
    ((l.usage == .bed && l.isAvailable) = true →
      (nh_clinical_patient_discharge.cancel s aid).1 = none ∧
      (∃ sp', findAct (nh_clinical_patient_discharge.cancel s aid).2.activities par
          = some sp' ∧ sp'.state = .started ∧ sp'.dateTerminated = none) ∧
      (∃ m dm, findAct (nh_clinical_patient_discharge.cancel s aid).2.activities s.nextId
          = some m ∧ m.state = .completed ∧ m.parentId = some par ∧
        m.creatorId = some aid ∧ m.data = .move dm ∧ dm.patientId = d.patientId ∧
        dm.locationId = some lid)) ∧
    ((l.usage == .bed && l.isAvailable) = false →
      ∀ w, (if l.usage == .ward then some l.id else closestWard s l.id) = some w →
      (nh_clinical_patient_discharge.cancel s aid).1 = none ∧
      (∃ sp', findAct (nh_clinical_patient_discharge.cancel s aid).2.activities par
          = some sp' ∧ sp'.state = .started ∧ sp'.dateTerminated = none) ∧
      (∃ m dm, findAct (nh_clinical_patient_discharge.cancel s aid).2.activities s.nextId
          = some m ∧ m.state = .completed ∧ m.parentId = some par ∧
        m.creatorId = some aid ∧ m.data = .move dm ∧ dm.patientId = d.patientId ∧
        dm.locationId = some w) ∧
      Ev.triggerPolicy aid (some w) ∈
        (nh_clinical_patient_discharge.cancel s aid).2.log) := by
  have haidlt : aid < s.nextId := by
    have hm := findAct_mem s.activities aid act ha
    have hid := findAct_id s.activities aid act ha
    have := hwf act hm
    rwa [hid] at this
  have hparlt : par < s.nextId := by
    have hm := findAct_mem s.activities par spa hspa
    have hid := findAct_id s.activities par spa hspa
    have := hwf spa hm
    rwa [hid] at this
  have hnepm : par ≠ s.nextId := Nat.ne_of_lt hparlt
  set DM : MoveData := { patientId := d.patientId, locationId := some lid, fromLocationId := none, moveDatetime := d.dischargeDate } with hDM
  set REC : Activity := { id := s.nextId, state := .draft, parentId := some par, creatorId := some aid, sequence := s.nextSeq + 1, dateTerminated := none, data := .move DM } with hREC
  set S2 : Sys := { s with activities := updActs (updActs s.activities aid (fun a => { a with state := .cancelled, dateTerminated := some s.now, sequence := s.nextSeq })) par (fun a => { a with state := .started, dateTerminated := none }) ++ [REC], nextId := s.nextId + 1, nextSeq := s.nextSeq + 1 + 1, log := (s.log ++ [Ev.baseCancel aid]) ++ [Ev.createActivity s.nextId] } with hS2
  have hfre : findAct S2.activities s.nextId = some REC := by
    simp only [hS2]
    rw [findAct_append_fresh _ _ _
      (fun a hmem => Nat.ne_of_lt
        (updActs_ids_lt _ par s.nextId _ (by intro x; rfl)
          (updActs_ids_lt s.activities aid s.nextId _ (by intro x; rfl) hwf) a hmem))]
    simp
  have hfpar : findAct S2.activities par =
      some { spa with state := .started, dateTerminated := none } := by
    simp only [hS2]
    apply findAct_append_left
    rw [findAct_updActs_self _ _ _ (by intro x; rfl)]
    rw [findAct_updActs_ne _ _ _ _ (by intro x; rfl) hpne]
    rw [hspa]
    rfl
  have e6 : closestWard S2 = closestWard s := rfl
  suffices hsuff : ∀ R : Option Err × Sys,
      R = (if (l.usage == .bed && l.isAvailable) = true then
             nh_clinical_patient_move.complete S2 s.nextId
           else
             match nh_clinical_patient_move.complete
                 (baseSubmitLocation S2 s.nextId
                   (if (l.usage == .ward) = true then some l.id else closestWard s l.id))
                 s.nextId with
             | (some e, s') => (some e, s')
             | (none, s4) => (none, triggerPolicy s4 aid
                 (if (l.usage == .ward) = true then some l.id else closestWard s l.id))) →
      (((l.usage == .bed && l.isAvailable) = true →
        R.1 = none ∧
        (∃ sp', findAct R.2.activities par = some sp' ∧ sp'.state = .started ∧
          sp'.dateTerminated = none) ∧
        (∃ m dm, findAct R.2.activities s.nextId = some m ∧ m.state = .completed ∧
          m.parentId = some par ∧ m.creatorId = some aid ∧ m.data = .move dm ∧
          dm.patientId = d.patientId ∧ dm.locationId = some lid)) ∧
      ((l.usage == .bed && l.isAvailable) = false →
        ∀ w, (if l.usage == .ward then some l.id else closestWard s l.id) = some w →
        R.1 = none ∧
        (∃ sp', findAct R.2.activities par = some sp' ∧ sp'.state = .started ∧
          sp'.dateTerminated = none) ∧
        (∃ m dm, findAct R.2.activities s.nextId = some m ∧ m.state = .completed ∧
          m.parentId = some par ∧ m.creatorId = some aid ∧ m.data = .move dm ∧
          dm.patientId = d.patientId ∧ dm.locationId = some w) ∧
        Ev.triggerPolicy aid (some w) ∈ R.2.log)) by
    have hrun : nh_clinical_patient_discharge.cancel s aid =
        (if (l.usage == .bed && l.isAvailable) = true then
           nh_clinical_patient_move.complete S2 s.nextId
         else
           match nh_clinical_patient_move.complete
               (baseSubmitLocation S2 s.nextId
                 (if (l.usage == .ward) = true then some l.id else closestWard s l.id))
               s.nextId with
           | (some e, s') => (some e, s')
           | (none, s4) => (none, triggerPolicy s4 aid
               (if (l.usage == .ward) = true then some l.id else closestWard s l.id))) := by
      rw [← e6]
      simp only [nh_clinical_patient_discharge.cancel, ha, hd, hadm, hp, hlid,
        createActivity, baseCancel, findLoc, hS2, hREC, hDM, Option.some_bind]
      simp only [show List.find? (fun x : Location => x.id == lid) s.locations = some l from hthe]
      rw [if_neg (by simp)]
    rw [hrun]
    exact hsuff _ rfl
  intro R hR
  constructor
  · intro hba
    rw [hR, if_pos hba]
    cases hmcv : nh_clinical_patient_move.complete S2 s.nextId with
    | mk e1 S3 =>
      cases e1 with
      | some err =>
        exfalso
        have hf := move_complete_fst S2 s.nextId REC DM lid hfre rfl rfl
        rw [hmcv] at hf
        simp at hf
      | none =>
        refine ⟨rfl, ?_, ?_⟩
        · have h := move_complete_act_parent S2 s.nextId par REC DM lid hfre rfl rfl rfl hnepm
          rw [hmcv, hfpar] at h
          exact ⟨_, h, rfl, rfl⟩
        · have h := move_complete_act_self S2 s.nextId par REC DM lid hfre rfl rfl rfl hnepm
          rw [hmcv] at h
          exact ⟨_, _, h, rfl, rfl, rfl, rfl, rfl, rfl⟩
  · intro hba w hw
    rw [hR, if_neg (by simp [hba]), show (if (l.usage == .ward) = true then some l.id
      else closestWard s l.id) = some w from hw]
    set S2B : Sys := baseSubmitLocation S2 s.nextId (some w) with hS2B
    have hfre' : findAct S2B.activities s.nextId =
        some { REC with data := .move { DM with locationId := some w } } := by
      simp only [hS2B, baseSubmitLocation]
      rw [findAct_updActs_self _ _ _ (by intro x; rfl), hfre]
      rfl
    have hfpar' : findAct S2B.activities par =
        some { spa with state := .started, dateTerminated := none } := by
      simp only [hS2B, baseSubmitLocation]
      rw [findAct_updActs_ne _ _ _ _ (by intro x; rfl) hnepm]
      exact hfpar
    cases hmcv : nh_clinical_patient_move.complete S2B s.nextId with
    | mk e1 S3 =>
      cases e1 with
      | some err =>
        exfalso
        have hf := move_complete_fst S2B s.nextId _ _ w hfre' rfl rfl
        rw [hmcv] at hf
        simp at hf
      | none =>
        refine ⟨rfl, ?_, ?_, ?_⟩
        · have h := move_complete_act_parent S2B s.nextId par _ _ w hfre' rfl rfl rfl hnepm
          rw [hmcv, hfpar'] at h
          exact ⟨_, h, rfl, rfl⟩
        · have h := move_complete_act_self S2B s.nextId par _ _ w hfre' rfl rfl rfl hnepm
          rw [hmcv] at h
          exact ⟨_, _, h, rfl, rfl, rfl, rfl, rfl, rfl⟩
        · show Ev.triggerPolicy aid (some w) ∈ S3.log ++ [Ev.triggerPolicy aid (some w)]
          simp

/-- C6 witness: cancelling the completed discharge 2 of patient 201 in `exD`
(pre-discharge location: bed 2, still available) reopens spell 1 and creates
and completes movement 9 back to bed 2. -/
theorem claim_C6_witness :
    ((exDbed2.usage == .bed && exDbed2.isAvailable) = true →
      (nh_clinical_patient_discharge.cancel exD 2).1 = none ∧
      (∃ sp', findAct (nh_clinical_patient_discharge.cancel exD 2).2.activities 1
          = some sp' ∧ sp'.state = .started ∧ sp'.dateTerminated = none) ∧
      (∃ m dm, findAct (nh_clinical_patient_discharge.cancel exD 2).2.activities 9
          = some m ∧ m.state = .completed ∧ m.parentId = some 1 ∧
        m.creatorId = some 2 ∧ m.data = .move dm ∧ dm.patientId = 201 ∧
        dm.locationId = some 2)) ∧
    ((exDbed2.usage == .bed && exDbed2.isAvailable) = false →
      ∀ w, (if exDbed2.usage == .ward then some exDbed2.id
        else closestWard exD exDbed2.id) = some w →
      (nh_clinical_patient_discharge.cancel exD 2).1 = none ∧
      (∃ sp', findAct (nh_clinical_patient_discharge.cancel exD 2).2.activities 1
          = some sp' ∧ sp'.state = .started ∧ sp'.dateTerminated = none) ∧
      (∃ m dm, findAct (nh_clinical_patient_discharge.cancel exD 2).2.activities 9
          = some m ∧ m.state = .completed ∧ m.parentId = some 1 ∧
        m.creatorId = some 2 ∧ m.data = .move dm ∧ dm.patientId = 201 ∧
        dm.locationId = some w) ∧
      Ev.triggerPolicy 2 (some w) ∈
        (nh_clinical_patient_discharge.cancel exD 2).2.log) :=
  claim_C6 exD 2 1 2
    { id := 2, state := .completed, parentId := some 1, creatorId := none, sequence := 2,
      dateTerminated := some 500,
      data := .discharge { patientId := 201, locationId := some 2, dischargeDate := some 400 } }
    { id := 1, state := .completed, parentId := none, creatorId := none, sequence := 1,
      dateTerminated := some 500,
      data := .spell { patientId := 201, locationId := some 4, posId := 10 } }
    { patientId := 201, locationId := some 2, dischargeDate := some 400 }
    exDbed2
    (by decide) (by decide) rfl (by decide) rfl (by decide) (by decide) rfl (by decide)
